import Mathlib

/-!
# Frame orchestration of the wavelet-rasterization renderer

A shallow embedding of `src/main.cpp`.  Every graphics-API call the program
makes is recorded as a value of a call type, so that the order and the
arguments of the calls can be stated and proved.  Results that the driver
returns (result codes, the acquired image index) are inputs of the model.
-/

namespace WR

/-! ## Data model (main.cpp 17-72) -/

/-- API handles (pointers and non-dispatchable handles); 0 is the null handle. -/
abbrev Handle := Nat

/-- The null handle, `VK_NULL_HANDLE` or `nullptr`. -/
def VK_NULL_HANDLE : Handle := 0

/-- Result codes of the graphics API (`VkResult`), a signed 32-bit enum. -/
abbrev VkResult := Int

def VK_SUCCESS : VkResult := 0
def VK_NOT_READY : VkResult := 1
def VK_TIMEOUT : VkResult := 2
def VK_SUBOPTIMAL_KHR : VkResult := 1000001003
def VK_ERROR_OUT_OF_HOST_MEMORY : VkResult := -1
def VK_ERROR_OUT_OF_DEVICE_MEMORY : VkResult := -2
def VK_ERROR_DEVICE_LOST : VkResult := -4
def VK_ERROR_OUT_OF_DATE_KHR : VkResult := -1000001004

/-- Image layouts named by the program (`VkImageLayout`). -/
inductive VkImageLayout where
  | UNDEFINED
  | GENERAL
  | TRANSFER_SRC_OPTIMAL
  | TRANSFER_DST_OPTIMAL
  | PRESENT_SRC_KHR
  deriving DecidableEq, Repr

/-- Pipeline stage masks used by the program. -/
abbrev VkPipelineStageFlags := Nat

def VK_PIPELINE_STAGE_ALL_COMMANDS_BIT : VkPipelineStageFlags := 0x00010000
def VK_PIPELINE_STAGE_2_COLOR_ATTACHMENT_OUTPUT_BIT : VkPipelineStageFlags := 0x00000400
def VK_PIPELINE_STAGE_2_ALL_GRAPHICS_BIT : VkPipelineStageFlags := 0x00008000

def UINT64_MAX : Nat := 2 ^ 64 - 1
def VK_QUEUE_FAMILY_IGNORED : Nat := 2 ^ 32 - 1
def VK_IMAGE_ASPECT_COLOR_BIT : Nat := 1

structure VkExtent2D where
  width : Nat
  height : Nat
  deriving DecidableEq, Repr

structure VkExtent3D where
  width : Nat
  height : Nat
  depth : Nat
  deriving DecidableEq, Repr

/-- The per-slot objects, `struct Frame` (main.cpp 41-47). -/
structure Frame where
  cmd : Handle
  fence : Handle
  image_available : Handle
  render_finished : Handle
  deriving DecidableEq, Repr

/-- The owned image, `struct Image` (main.cpp 52-59); `format` is the enum value. -/
structure Image where
  handle : Handle
  view : Handle
  allocation : Handle
  format : Nat
  extent : VkExtent3D
  deriving DecidableEq, Repr

/-- The owned buffer, `struct Buffer` (main.cpp 61-65). -/
structure Buffer where
  handle : Handle
  allocation : Handle
  deriving DecidableEq, Repr

/-- The process-scope variables (main.cpp 21-72). -/
structure Globals where
  g_window : Handle
  g_instance : Handle
  g_debug_messenger : Handle
  g_surface : Handle
  g_physical_device : Handle
  g_queue : Handle
  g_queue_family_index : Nat
  g_device : Handle
  g_swapchain : Handle
  g_swapchain_image_format : Nat
  g_swapchain_image_count : Nat
  g_swapchain_extent : VkExtent2D
  g_swapchain_images : List Handle
  g_swapchain_image_views : List Handle
  g_command_pool : Handle
  g_allocator : Handle
  g_descriptor_pool : Handle
  g_descriptor_set_layout : Handle
  g_descriptor_set : Handle
  g_frames : List Frame
  g_frame_index : Nat
  g_wr_pipeline : Handle
  g_wr_pipeline_layout : Handle
  g_wr_image : Image
  deriving DecidableEq, Repr

/-! ## Calls made while rendering one frame -/

/-- One `VkImageMemoryBarrier` as filled in by `transform_image_layout`. -/
structure ImageBarrier where
  oldLayout : VkImageLayout
  newLayout : VkImageLayout
  srcQueueFamilyIndex : Nat
  dstQueueFamilyIndex : Nat
  image : Handle
  aspectMask : Nat
  baseMipLevel : Nat
  levelCount : Nat
  baseArrayLayer : Nat
  layerCount : Nat
  deriving DecidableEq, Repr

/-- The calls of `render` and its helpers, with the arguments the program passes. -/
inductive Call where
  | vkWaitForFences (fence : Handle) (waitAll : Bool) (timeout : Nat)
  | vkResetFences (fence : Handle)
  | vkAcquireNextImageKHR (swapchain : Handle) (timeout : Nat) (semaphore : Handle) (fence : Handle)
  | vkResetCommandBuffer (cmd : Handle)
  | vkBeginCommandBuffer (cmd : Handle)
  | vkCmdSetViewport (cmd : Handle) (width height : Nat)
  | vkCmdSetScissor (cmd : Handle) (extent : VkExtent2D)
  | vkCmdPipelineBarrier (cmd : Handle) (srcStageMask dstStageMask : VkPipelineStageFlags)
      (memoryBarrierCount bufferMemoryBarrierCount : Nat) (imageMemoryBarriers : List ImageBarrier)
  | vkCmdBindPipeline (cmd : Handle) (pipeline : Handle)
  | vkCmdBindDescriptorSets (cmd : Handle) (layout : Handle) (sets : List Handle)
  | vkCmdDispatch (cmd : Handle) (groupCountX groupCountY groupCountZ : Nat)
  | vkCmdBlitImage2 (cmd : Handle) (srcImage : Handle) (srcImageLayout : VkImageLayout)
      (dstImage : Handle) (dstImageLayout : VkImageLayout) (srcExtent dstExtent : VkExtent3D)
  | vkEndCommandBuffer (cmd : Handle)
  | vkQueueSubmit2 (queue : Handle) (waitSemaphores : List (Handle × VkPipelineStageFlags))
      (commandBuffers : List Handle) (signalSemaphores : List (Handle × VkPipelineStageFlags))
      (fence : Handle)
  | vkQueuePresentKHR (queue : Handle) (waitSemaphores : List Handle) (swapchain : Handle)
      (imageIndex : Nat)
  | exit (code : Nat)
  deriving DecidableEq, Repr

/-- How a function of the program ends: it returns with the globals it leaves,
the process exits with a code, or the behaviour is undefined in C++ (a vector
indexed out of range, a remainder by zero). -/
inductive Outcome where
  | returned (g : Globals)
  | exited (code : Nat)
  | undefined_behaviour
  deriving DecidableEq, Repr

/-- The calls made, in order, and how the function ended. -/
structure Run where
  calls : List Call
  outcome : Outcome
  deriving DecidableEq, Repr

/-! ## misc funcs (main.cpp 78-86) -/

/-- `exit_if` (main.cpp 78-81): `some 1` when the process exits with code 1. -/
def exit_if (b : Bool) : Option Nat :=
  if b then some 1 else none

/-- `check_vk` (main.cpp 83-86). -/
def check_vk (result : VkResult) : Option Nat :=
  exit_if (result != VK_SUCCESS)

/-! ## render (main.cpp 213-226, 294-330, 700-792) -/

/-- `transform_image_layout` (main.cpp 213-226): one pipeline barrier holding one
image barrier. -/
def transform_image_layout (cmd : Handle) (image : Handle)
    (old_layout new_layout : VkImageLayout) : Call :=
  Call.vkCmdPipelineBarrier cmd VK_PIPELINE_STAGE_ALL_COMMANDS_BIT
    VK_PIPELINE_STAGE_ALL_COMMANDS_BIT 0 0
    [{ oldLayout := old_layout, newLayout := new_layout,
       srcQueueFamilyIndex := VK_QUEUE_FAMILY_IGNORED,
       dstQueueFamilyIndex := VK_QUEUE_FAMILY_IGNORED,
       image := image, aspectMask := VK_IMAGE_ASPECT_COLOR_BIT,
       baseMipLevel := 0, levelCount := 1, baseArrayLayer := 0, layerCount := 1 }]

/-- `blit_image` (main.cpp 294-330). -/
def blit_image (cmd : Handle) (src dst : Handle) (src_extent dst_extent : VkExtent2D) : Call :=
  Call.vkCmdBlitImage2 cmd src VkImageLayout.TRANSFER_SRC_OPTIMAL dst
    VkImageLayout.TRANSFER_DST_OPTIMAL
    ⟨src_extent.width, src_extent.height, 1⟩ ⟨dst_extent.width, dst_extent.height, 1⟩

/-- One workgroup count of main.cpp 736, `std::ceil((dim + 15) / 16)` passed as a
`uint32_t`: the sum and the quotient are 32-bit unsigned (the sum wraps, the
division truncates), `std::ceil` is applied to the quotient converted to a double
(exact, the quotient is below 2^28), and the double is converted back. -/
def group_count (dim : Nat) : Nat :=
  let quotient : Nat := ((dim + 15) % 2 ^ 32) / 16
  let ceiled : ℚ := (Int.ceil (quotient : ℚ) : ℤ)
  Int.toNat (Int.floor ceiled) % 2 ^ 32

/-- The commands recorded from the viewport to the second barrier (main.cpp
722-739); none of them names the acquired image.  The viewport is recorded with
the integer extent its float fields are converted from. -/
def record_compute (g : Globals) (frame : Frame) : List Call :=
  [ Call.vkCmdSetViewport frame.cmd g.g_swapchain_extent.width g.g_swapchain_extent.height,
    Call.vkCmdSetScissor frame.cmd g.g_swapchain_extent,
    transform_image_layout frame.cmd g.g_wr_image.handle
      VkImageLayout.UNDEFINED VkImageLayout.GENERAL,
    Call.vkCmdBindPipeline frame.cmd g.g_wr_pipeline,
    Call.vkCmdBindDescriptorSets frame.cmd g.g_wr_pipeline_layout [g.g_descriptor_set],
    Call.vkCmdDispatch frame.cmd (group_count g.g_swapchain_extent.width)
      (group_count g.g_swapchain_extent.height) 1,
    transform_image_layout frame.cmd g.g_wr_image.handle
      VkImageLayout.GENERAL VkImageLayout.TRANSFER_SRC_OPTIMAL ]

/-- The commands recorded for the copy to the acquired image (main.cpp 740-744);
`swapchain_image` is `g_swapchain_images[image_index]`. -/
def record_copy (g : Globals) (frame : Frame) (swapchain_image : Handle) : List Call :=
  [ transform_image_layout frame.cmd swapchain_image
      VkImageLayout.UNDEFINED VkImageLayout.TRANSFER_DST_OPTIMAL,
    blit_image frame.cmd g.g_wr_image.handle swapchain_image
      ⟨g.g_wr_image.extent.width, g.g_wr_image.extent.height⟩ g.g_swapchain_extent,
    transform_image_layout frame.cmd swapchain_image
      VkImageLayout.TRANSFER_DST_OPTIMAL VkImageLayout.PRESENT_SRC_KHR ]

/-- The commands recorded between begin and end (main.cpp 722-744). -/
def record_commands (g : Globals) (frame : Frame) (swapchain_image : Handle) : List Call :=
  record_compute g frame ++ record_copy g frame swapchain_image

/-- What the driver returns to the calls of one `render`: the result code of each
result-returning call and the image index written by the acquire. -/
structure FrameResults where
  waitForFences : VkResult
  resetFences : VkResult
  acquireNextImage : VkResult
  image_index : Nat
  resetCommandBuffer : VkResult
  beginCommandBuffer : VkResult
  endCommandBuffer : VkResult
  queueSubmit2 : VkResult
  queuePresent : VkResult
  deriving DecidableEq, Repr

/-- The process exits inside `check_vk`: the calls so far, then `exit(code)`. -/
def Run.exit_after (calls : List Call) (code : Nat) : Run :=
  ⟨calls ++ [Call.exit code], Outcome.exited code⟩

/-- The globals after `g_frame_index = (g_frame_index + 1) % g_swapchain_image_count`
(main.cpp 791), in 32-bit unsigned arithmetic; nothing else changes. -/
def advance (g : Globals) : Globals :=
  { g with g_frame_index := ((g.g_frame_index + 1) % 2 ^ 32) % g.g_swapchain_image_count }

/-- `render` (main.cpp 700-792).  The results of `vkBeginCommandBuffer` (line 720)
and `vkEndCommandBuffer` (line 747) are not passed to `check_vk`. -/
def render (g : Globals) (r : FrameResults) : Run :=
  match g.g_frames[g.g_frame_index]? with
  | none => ⟨[], Outcome.undefined_behaviour⟩
  | some frame =>
  let c1 := [Call.vkWaitForFences frame.fence true UINT64_MAX]
  match check_vk r.waitForFences with
  | some code => Run.exit_after c1 code
  | none =>
  let c2 := c1 ++ [Call.vkResetFences frame.fence]
  match check_vk r.resetFences with
  | some code => Run.exit_after c2 code
  | none =>
  let c3 := c2 ++ [Call.vkAcquireNextImageKHR g.g_swapchain UINT64_MAX
                     frame.image_available VK_NULL_HANDLE]
  match check_vk r.acquireNextImage with
  | some code => Run.exit_after c3 code
  | none =>
  let c4 := c3 ++ [Call.vkResetCommandBuffer frame.cmd]
  match check_vk r.resetCommandBuffer with
  | some code => Run.exit_after c4 code
  | none =>
  let c5 := c4 ++ [Call.vkBeginCommandBuffer frame.cmd]
  match g.g_swapchain_images[r.image_index]? with
  | none => ⟨c5 ++ record_compute g frame, Outcome.undefined_behaviour⟩
  | some swapchain_image =>
  let c6 := c5 ++ record_commands g frame swapchain_image ++ [Call.vkEndCommandBuffer frame.cmd]
  let c7 := c6 ++ [Call.vkQueueSubmit2 g.g_queue
                     [(frame.image_available, VK_PIPELINE_STAGE_2_COLOR_ATTACHMENT_OUTPUT_BIT)]
                     [frame.cmd]
                     [(frame.render_finished, VK_PIPELINE_STAGE_2_ALL_GRAPHICS_BIT)]
                     frame.fence]
  match check_vk r.queueSubmit2 with
  | some code => Run.exit_after c7 code
  | none =>
  let c8 := c7 ++ [Call.vkQueuePresentKHR g.g_queue [frame.render_finished] g.g_swapchain
                     r.image_index]
  match check_vk r.queuePresent with
  | some code => Run.exit_after c8 code
  | none =>
  if g.g_swapchain_image_count = 0 then ⟨c8, Outcome.undefined_behaviour⟩ else
  ⟨c8, Outcome.returned (advance g)⟩

/-- `init_frames` (main.cpp 549-577) on the path where every `check_vk` passes:
`g_frames` is resized to `g_swapchain_image_count` and slot `i` is filled with the
objects the driver created for it, `created i`.  Every fence is created with
`VK_FENCE_CREATE_SIGNALED_BIT`. -/
def init_frames (g : Globals) (created : Nat → Frame) : Globals :=
  { g with g_frames := (List.range g.g_swapchain_image_count).map created }

/-- The value of `g_frame_index` read by each frame that `render` completes,
for successive calls of `render` (the loop of main.cpp 804-814); the list ends
at the first frame that does not return. -/
def slots_used (g : Globals) : List FrameResults → List Nat
  | [] => []
  | r :: rs =>
    match (render g r).outcome with
    | Outcome.returned g2 => g.g_frame_index :: slots_used g2 rs
    | _ => []

/-- Every call of the frame that `check_vk` guards returns `VK_SUCCESS`. -/
def FrameResults.checked_ok (r : FrameResults) : Prop :=
  r.waitForFences = VK_SUCCESS ∧ r.resetFences = VK_SUCCESS ∧
  r.acquireNextImage = VK_SUCCESS ∧ r.resetCommandBuffer = VK_SUCCESS ∧
  r.queueSubmit2 = VK_SUCCESS ∧ r.queuePresent = VK_SUCCESS

instance FrameResults.decidable_checked_ok (r : FrameResults) : Decidable r.checked_ok := by
  unfold FrameResults.checked_ok; infer_instance

/-- The calls of a frame in which no `check_vk` exits, in program order. -/
def completed_calls (g : Globals) (frame : Frame) (image_index : Nat)
    (swapchain_image : Handle) : List Call :=
  [ Call.vkWaitForFences frame.fence true UINT64_MAX,
    Call.vkResetFences frame.fence,
    Call.vkAcquireNextImageKHR g.g_swapchain UINT64_MAX frame.image_available VK_NULL_HANDLE,
    Call.vkResetCommandBuffer frame.cmd,
    Call.vkBeginCommandBuffer frame.cmd ]
  ++ record_commands g frame swapchain_image ++
  [ Call.vkEndCommandBuffer frame.cmd,
    Call.vkQueueSubmit2 g.g_queue
      [(frame.image_available, VK_PIPELINE_STAGE_2_COLOR_ATTACHMENT_OUTPUT_BIT)]
      [frame.cmd]
      [(frame.render_finished, VK_PIPELINE_STAGE_2_ALL_GRAPHICS_BIT)]
      frame.fence,
    Call.vkQueuePresentKHR g.g_queue [frame.render_finished] g.g_swapchain image_index ]

/-- The calls before the first recorded command all return `VK_SUCCESS`, so the
frame reaches the recording of main.cpp 722-744. -/
def FrameResults.recording_reached (r : FrameResults) : Prop :=
  r.waitForFences = VK_SUCCESS ∧ r.resetFences = VK_SUCCESS ∧
  r.acquireNextImage = VK_SUCCESS ∧ r.resetCommandBuffer = VK_SUCCESS

instance FrameResults.decidable_recording_reached (r : FrameResults) :
    Decidable r.recording_reached := by
  unfold FrameResults.recording_reached; infer_instance

/-- Selects the barriers, the dispatch and the blit among the calls. -/
def is_barrier_dispatch_blit : Call → Bool
  | Call.vkCmdPipelineBarrier _ _ _ _ _ _ => true
  | Call.vkCmdDispatch _ _ _ _ => true
  | Call.vkCmdBlitImage2 _ _ _ _ _ _ _ => true
  | _ => false

/-- Selects the calls that record into a command buffer (`vkCmd*`), with the
command buffer they record into. -/
def recorded_into : Call → Option Handle
  | Call.vkCmdSetViewport cmd _ _ => some cmd
  | Call.vkCmdSetScissor cmd _ => some cmd
  | Call.vkCmdPipelineBarrier cmd _ _ _ _ _ => some cmd
  | Call.vkCmdBindPipeline cmd _ => some cmd
  | Call.vkCmdBindDescriptorSets cmd _ _ => some cmd
  | Call.vkCmdDispatch cmd _ _ _ => some cmd
  | Call.vkCmdBlitImage2 cmd _ _ _ _ _ _ => some cmd
  | _ => none

/-- Selects `exit`. -/
def is_exit : Call → Bool
  | Call.exit _ => true
  | _ => false

/-! ## destroy (main.cpp 88-101) -/

/-- The value of `image = {}` and of a default-initialised `Image`: every field zero. -/
def Image.null : Image :=
  { handle := VK_NULL_HANDLE, view := VK_NULL_HANDLE, allocation := VK_NULL_HANDLE,
    format := 0, extent := ⟨0, 0, 0⟩ }

/-- The value of `buffer = {}` and of a default-initialised `Buffer`. -/
def Buffer.null : Buffer :=
  { handle := VK_NULL_HANDLE, allocation := VK_NULL_HANDLE }

/-- The calls made by the two `destroy` overloads, with the handles passed. -/
inductive DestroyCall where
  | vkDestroyImageView (view : Handle)
  | vmaDestroyImage (image : Handle) (allocation : Handle)
  | vmaDestroyBuffer (buffer : Handle) (allocation : Handle)
  deriving DecidableEq, Repr

/-- `destroy(Image&)` (main.cpp 88-94) with assertions enabled: `none` when
`assert(image.handle && image.allocation && image.view)` fails, else the calls made
and the value left in `image`. -/
def destroy_image (image : Image) : Option (List DestroyCall × Image) :=
  if image.handle ≠ VK_NULL_HANDLE ∧ image.allocation ≠ VK_NULL_HANDLE ∧
      image.view ≠ VK_NULL_HANDLE then
    some ([DestroyCall.vkDestroyImageView image.view,
           DestroyCall.vmaDestroyImage image.handle image.allocation], Image.null)
  else none

/-- `destroy(Buffer&)` (main.cpp 96-101) with assertions enabled: `none` when
`assert(buffer.handle && buffer.allocation)` fails. -/
def destroy_buffer (buffer : Buffer) : Option (List DestroyCall × Buffer) :=
  if buffer.handle ≠ VK_NULL_HANDLE ∧ buffer.allocation ≠ VK_NULL_HANDLE then
    some ([DestroyCall.vmaDestroyBuffer buffer.handle buffer.allocation], Buffer.null)
  else none

/-! ## Start-up and shutdown (main.cpp 103-133, 336-694)

The calls of the start-up functions and of `release_resources` are recorded with
the program object they create or destroy, named by the variable that holds it. -/

/-- The objects of the program, named by the variable that holds them. -/
inductive Obj where
  | window
  | vk_instance
  | debug_messenger
  | surface
  | device
  | swapchain
  | swapchain_image_view (i : Nat)
  | command_pool
  | frame_cmd (i : Nat)
  | frame_fence (i : Nat)
  | frame_image_available (i : Nat)
  | frame_render_finished (i : Nat)
  | allocator
  | wr_image
  | wr_image_view
  | descriptor_pool
  | descriptor_set_layout
  | descriptor_set
  | wr_pipeline_layout
  | shader_module
  | wr_pipeline
  deriving DecidableEq, Repr

/-- The calls of `init_SDL`, `init_vk` and `init_wr` on the path where every check
passes. -/
inductive InitCall where
  | SDL_Init
  | SDL_CreateWindow
  | vkEnumerateInstanceVersion
  | SDL_Vulkan_GetInstanceExtensions
  | vkCreateInstance
  | vkCreateDebugUtilsMessengerEXT
  | SDL_Vulkan_CreateSurface
  | vkEnumeratePhysicalDevices
  | vkGetPhysicalDeviceQueueFamilyProperties
  | vkCreateDevice
  | vkGetDeviceQueue
  | vkGetPhysicalDeviceSurfaceCapabilitiesKHR
  | vkGetPhysicalDeviceSurfaceFormatsKHR
  | vkCreateSwapchainKHR
  | vkGetSwapchainImagesKHR
  | vkCreateImageView (view : Obj)
  | vkCreateCommandPool
  | vkAllocateCommandBuffers (cmd : Obj)
  | vkCreateFence (fence : Obj) (signaled : Bool)
  | vkCreateSemaphore (semaphore : Obj)
  | vmaCreateAllocator
  | vmaCreateImage (image : Obj)
  | vkCreateDescriptorPool
  | vkCreateDescriptorSetLayout
  | vkAllocateDescriptorSets
  | vkUpdateDescriptorSets
  | vkCreatePipelineLayout
  | vkCreateShaderModule
  | vkCreateComputePipelines
  | vkDestroyShaderModule
  deriving DecidableEq, Repr

/-- `init_SDL` (main.cpp 336-343). -/
def init_SDL : List InitCall :=
  [InitCall.SDL_Init, InitCall.SDL_CreateWindow]

/-- `create_instance` (main.cpp 345-378). -/
def create_instance : List InitCall :=
  [InitCall.vkEnumerateInstanceVersion, InitCall.SDL_Vulkan_GetInstanceExtensions,
   InitCall.vkCreateInstance]

/-- `create_debug_messenger` (main.cpp 380-384). -/
def create_debug_messenger : List InitCall :=
  [InitCall.vkCreateDebugUtilsMessengerEXT]

/-- `create_surface` (main.cpp 386-389). -/
def create_surface : List InitCall :=
  [InitCall.SDL_Vulkan_CreateSurface]

/-- `select_physical_device` (main.cpp 391-399). -/
def select_physical_device : List InitCall :=
  [InitCall.vkEnumeratePhysicalDevices, InitCall.vkEnumeratePhysicalDevices]

/-- `create_device_and_get_graphics_queue` (main.cpp 401-462). -/
def create_device_and_get_graphics_queue : List InitCall :=
  [InitCall.vkGetPhysicalDeviceQueueFamilyProperties,
   InitCall.vkGetPhysicalDeviceQueueFamilyProperties,
   InitCall.vkCreateDevice, InitCall.vkGetDeviceQueue]

/-- `create_swapchain` (main.cpp 480-536); `count` is the image count the second
`vkGetSwapchainImagesKHR` reports, one view is created per image. -/
def create_swapchain (count : Nat) : List InitCall :=
  [InitCall.vkGetPhysicalDeviceSurfaceCapabilitiesKHR,
   InitCall.vkGetPhysicalDeviceSurfaceFormatsKHR,
   InitCall.vkGetPhysicalDeviceSurfaceFormatsKHR,
   InitCall.vkCreateSwapchainKHR,
   InitCall.vkGetSwapchainImagesKHR, InitCall.vkGetSwapchainImagesKHR]
  ++ (List.range count).map (fun i => InitCall.vkCreateImageView (Obj.swapchain_image_view i))

/-- `create_command_pool` (main.cpp 538-547). -/
def create_command_pool : List InitCall :=
  [InitCall.vkCreateCommandPool]

/-- The calls of `init_frames` (main.cpp 549-577), slot by slot. -/
def init_frames_calls (count : Nat) : List InitCall :=
  (List.range count).flatMap (fun i =>
    [InitCall.vkAllocateCommandBuffers (Obj.frame_cmd i),
     InitCall.vkCreateFence (Obj.frame_fence i) true,
     InitCall.vkCreateSemaphore (Obj.frame_image_available i),
     InitCall.vkCreateSemaphore (Obj.frame_render_finished i)])

/-- `init_vma` (main.cpp 464-478). -/
def init_vma : List InitCall :=
  [InitCall.vkEnumerateInstanceVersion, InitCall.vmaCreateAllocator]

/-- The calls of `create_image` (main.cpp 228-272) for `g_wr_image`. -/
def create_image : List InitCall :=
  [InitCall.vmaCreateImage Obj.wr_image, InitCall.vkCreateImageView Obj.wr_image_view]

/-- `create_descriptor_resources` (main.cpp 583-642). -/
def create_descriptor_resources : List InitCall :=
  [InitCall.vkCreateDescriptorPool, InitCall.vkCreateDescriptorSetLayout,
   InitCall.vkAllocateDescriptorSets, InitCall.vkUpdateDescriptorSets]

/-- `init_wr` (main.cpp 644-677). -/
def init_wr : List InitCall :=
  create_image ++ create_descriptor_resources ++
  [InitCall.vkCreatePipelineLayout, InitCall.vkCreateShaderModule,
   InitCall.vkCreateComputePipelines, InitCall.vkDestroyShaderModule]

/-- `init_vk` (main.cpp 679-694). -/
def init_vk (count : Nat) : List InitCall :=
  create_instance ++ create_debug_messenger ++ create_surface ++ select_physical_device ++
  create_device_and_get_graphics_queue ++ create_swapchain count ++ create_command_pool ++
  init_frames_calls count ++ init_vma ++ init_wr

/-- The start of `main` (main.cpp 800-801): `init_SDL(); init_vk();`. -/
def startup (count : Nat) : List InitCall :=
  init_SDL ++ init_vk count

/-- The calls of `release_resources`; `assert_fail` is the failing assertion of
`destroy`, which aborts the process. -/
inductive TeardownCall where
  | vkDeviceWaitIdle
  | vkDestroyImageView (view : Obj)
  | vmaDestroyImage (image : Obj)
  | vkDestroyPipeline (pipeline : Obj)
  | vkDestroyPipelineLayout (layout : Obj)
  | vkDestroyDescriptorSetLayout (layout : Obj)
  | vkDestroyDescriptorPool (pool : Obj)
  | vmaDestroyAllocator (alloc : Obj)
  | vkDestroySemaphore (semaphore : Obj)
  | vkDestroyFence (fence : Obj)
  | vkFreeCommandBuffers (pool : Obj) (cmd : Obj)
  | vkDestroyCommandPool (pool : Obj)
  | vkDestroySwapchainKHR (chain : Obj)
  | vkDestroyDevice (dev : Obj)
  | vkDestroySurfaceKHR (surf : Obj)
  | pfn_vkDestroyDebugUtilsMessengerEXT (messenger : Obj)
  | vkDestroyInstance (inst : Obj)
  | SDL_DestroyWindow (win : Obj)
  | SDL_Quit
  | assert_fail
  deriving DecidableEq, Repr

/-- The program's `vkDestroyDebugUtilsMessengerEXT` (main.cpp 173-181): the entry
point is looked up by name and called only when the lookup finds it. -/
def vkDestroyDebugUtilsMessengerEXT (func_found : Bool) (messenger : Obj) : List TeardownCall :=
  if func_found then [TeardownCall.pfn_vkDestroyDebugUtilsMessengerEXT messenger] else []

/-- The calls of a teardown and whether it ran to its end (an assertion failure
aborts it). -/
structure TeardownRun where
  calls : List TeardownCall
  completed : Bool
  deriving DecidableEq, Repr

/-- `release_resources` (main.cpp 103-133).  The result of `vkDeviceWaitIdle` is
not checked.  `destroy(g_wr_image)` asserts that the image is valid. -/
def release_resources (g : Globals) (func_found : Bool) : TeardownRun :=
  match destroy_image g.g_wr_image with
  | none => ⟨[TeardownCall.vkDeviceWaitIdle, TeardownCall.assert_fail], false⟩
  | some _ =>
    ⟨[ TeardownCall.vkDeviceWaitIdle,
       TeardownCall.vkDestroyImageView Obj.wr_image_view,
       TeardownCall.vmaDestroyImage Obj.wr_image,
       TeardownCall.vkDestroyPipeline Obj.wr_pipeline,
       TeardownCall.vkDestroyPipelineLayout Obj.wr_pipeline_layout,
       TeardownCall.vkDestroyDescriptorSetLayout Obj.descriptor_set_layout,
       TeardownCall.vkDestroyDescriptorPool Obj.descriptor_pool,
       TeardownCall.vmaDestroyAllocator Obj.allocator ]
     ++ (List.range g.g_frames.length).flatMap (fun i =>
       [ TeardownCall.vkDestroySemaphore (Obj.frame_image_available i),
         TeardownCall.vkDestroySemaphore (Obj.frame_render_finished i),
         TeardownCall.vkDestroyFence (Obj.frame_fence i),
         TeardownCall.vkFreeCommandBuffers Obj.command_pool (Obj.frame_cmd i) ])
     ++ [ TeardownCall.vkDestroyCommandPool Obj.command_pool ]
     ++ (List.range g.g_swapchain_image_views.length).map (fun i =>
       TeardownCall.vkDestroyImageView (Obj.swapchain_image_view i))
     ++ [ TeardownCall.vkDestroySwapchainKHR Obj.swapchain,
          TeardownCall.vkDestroyDevice Obj.device,
          TeardownCall.vkDestroySurfaceKHR Obj.surface ]
     ++ vkDestroyDebugUtilsMessengerEXT func_found Obj.debug_messenger
     ++ [ TeardownCall.vkDestroyInstance Obj.vk_instance,
          TeardownCall.SDL_DestroyWindow Obj.window,
          TeardownCall.SDL_Quit ],
     true⟩

/-- The object a start-up call creates, if it creates one. -/
def created : InitCall → Option Obj
  | InitCall.SDL_CreateWindow => some Obj.window
  | InitCall.vkCreateInstance => some Obj.vk_instance
  | InitCall.vkCreateDebugUtilsMessengerEXT => some Obj.debug_messenger
  | InitCall.SDL_Vulkan_CreateSurface => some Obj.surface
  | InitCall.vkCreateDevice => some Obj.device
  | InitCall.vkCreateSwapchainKHR => some Obj.swapchain
  | InitCall.vkCreateImageView view => some view
  | InitCall.vkCreateCommandPool => some Obj.command_pool
  | InitCall.vkAllocateCommandBuffers cmd => some cmd
  | InitCall.vkCreateFence fence _ => some fence
  | InitCall.vkCreateSemaphore semaphore => some semaphore
  | InitCall.vmaCreateAllocator => some Obj.allocator
  | InitCall.vmaCreateImage image => some image
  | InitCall.vkCreateDescriptorPool => some Obj.descriptor_pool
  | InitCall.vkCreateDescriptorSetLayout => some Obj.descriptor_set_layout
  | InitCall.vkAllocateDescriptorSets => some Obj.descriptor_set
  | InitCall.vkCreatePipelineLayout => some Obj.wr_pipeline_layout
  | InitCall.vkCreateShaderModule => some Obj.shader_module
  | InitCall.vkCreateComputePipelines => some Obj.wr_pipeline
  | _ => none

/-- The object a teardown call destroys or frees, if any. -/
def destroyed : TeardownCall → Option Obj
  | TeardownCall.vkDestroyImageView view => some view
  | TeardownCall.vmaDestroyImage image => some image
  | TeardownCall.vkDestroyPipeline pipeline => some pipeline
  | TeardownCall.vkDestroyPipelineLayout layout => some layout
  | TeardownCall.vkDestroyDescriptorSetLayout layout => some layout
  | TeardownCall.vkDestroyDescriptorPool pool => some pool
  | TeardownCall.vmaDestroyAllocator alloc => some alloc
  | TeardownCall.vkDestroySemaphore semaphore => some semaphore
  | TeardownCall.vkDestroyFence fence => some fence
  | TeardownCall.vkFreeCommandBuffers _ cmd => some cmd
  | TeardownCall.vkDestroyCommandPool pool => some pool
  | TeardownCall.vkDestroySwapchainKHR chain => some chain
  | TeardownCall.vkDestroyDevice dev => some dev
  | TeardownCall.vkDestroySurfaceKHR surf => some surf
  | TeardownCall.pfn_vkDestroyDebugUtilsMessengerEXT messenger => some messenger
  | TeardownCall.vkDestroyInstance inst => some inst
  | TeardownCall.SDL_DestroyWindow win => some win
  | _ => none

/-- The fourteen kinds of object whose order the lifecycle rule speaks of. -/
inductive Group where
  | window
  | vk_instance
  | debug_messenger
  | surface
  | device
  | swapchain_and_views
  | command_pool
  | frame_slots
  | allocator
  | intermediate_image
  | descriptor_pool
  | descriptor_set_layout
  | pipeline_layout
  | pipeline
  deriving DecidableEq, Repr

/-- The kind an object belongs to.  The descriptor set (freed with its pool, never
destroyed on its own) and the shader module (destroyed inside `init_wr`) belong to
none. -/
def group_of : Obj → Option Group
  | Obj.window => some Group.window
  | Obj.vk_instance => some Group.vk_instance
  | Obj.debug_messenger => some Group.debug_messenger
  | Obj.surface => some Group.surface
  | Obj.device => some Group.device
  | Obj.swapchain => some Group.swapchain_and_views
  | Obj.swapchain_image_view _ => some Group.swapchain_and_views
  | Obj.command_pool => some Group.command_pool
  | Obj.frame_cmd _ => some Group.frame_slots
  | Obj.frame_fence _ => some Group.frame_slots
  | Obj.frame_image_available _ => some Group.frame_slots
  | Obj.frame_render_finished _ => some Group.frame_slots
  | Obj.allocator => some Group.allocator
  | Obj.wr_image => some Group.intermediate_image
  | Obj.wr_image_view => some Group.intermediate_image
  | Obj.descriptor_pool => some Group.descriptor_pool
  | Obj.descriptor_set_layout => some Group.descriptor_set_layout
  | Obj.descriptor_set => none
  | Obj.wr_pipeline_layout => some Group.pipeline_layout
  | Obj.shader_module => none
  | Obj.wr_pipeline => some Group.pipeline

/-- Merges each run of equal neighbours into one element. -/
def squash : List Group → List Group
  | [] => []
  | [a] => [a]
  | a :: b :: rest => if a = b then squash (b :: rest) else a :: squash (b :: rest)

/-- The kinds of object in the order `init_SDL` and `init_vk` create them. -/
def created_groups (count : Nat) : List Group :=
  squash ((startup count).filterMap (fun c => (created c).bind group_of))

/-- The kinds of object in the order `release_resources` destroys them. -/
def destroyed_groups (g : Globals) (func_found : Bool) : List Group :=
  squash ((release_resources g func_found).calls.filterMap
    (fun c => (destroyed c).bind group_of))

/-- The objects owned by the logical device or allocated through it. -/
def device_child : Obj → Bool
  | Obj.swapchain => true
  | Obj.swapchain_image_view _ => true
  | Obj.command_pool => true
  | Obj.frame_cmd _ => true
  | Obj.frame_fence _ => true
  | Obj.frame_image_available _ => true
  | Obj.frame_render_finished _ => true
  | Obj.allocator => true
  | Obj.wr_image => true
  | Obj.wr_image_view => true
  | Obj.descriptor_pool => true
  | Obj.descriptor_set_layout => true
  | Obj.descriptor_set => true
  | Obj.wr_pipeline_layout => true
  | Obj.shader_module => true
  | Obj.wr_pipeline => true
  | _ => false

/-- The globals as a successful `init_vk` leaves them for `count` presentable
images: the three vectors have `count` elements and the intermediate image is
fully created. -/
def initialised (g : Globals) (count : Nat) : Prop :=
  g.g_swapchain_image_count = count ∧ g.g_frames.length = count ∧
  g.g_swapchain_images.length = count ∧ g.g_swapchain_image_views.length = count ∧
  g.g_wr_image.handle ≠ VK_NULL_HANDLE ∧ g.g_wr_image.allocation ≠ VK_NULL_HANDLE ∧
  g.g_wr_image.view ≠ VK_NULL_HANDLE

instance initialised.decidable (g : Globals) (count : Nat) : Decidable (initialised g count) := by
  unfold initialised; infer_instance

/-! ## CPU and GPU steps of the frame loop (main.cpp 563-568, 700-792)

The CPU runs `render` call by call; between any two calls the GPU may complete
any submission it has not completed yet, which signals the fence the submission
was made with. -/

/-- The position of the CPU inside `render`: the call it makes next. -/
inductive Pc where
  | wait_for_fences
  | reset_fences
  | acquire_next_image
  | reset_command_buffer
  | begin_command_buffer
  | record
  | end_command_buffer
  | queue_submit
  | queue_present
  | advance
  | exited
  deriving DecidableEq, Repr

/-- The synchronisation state of the frame loop. -/
structure Sync where
  slot_count : Nat
  g_frame_index : Nat
  pc : Pc
  signaled : List Bool
  pending : List Nat
  deriving DecidableEq, Repr

/-- The state after `init_frames`: `slot_count` slots, every fence created with
`VK_FENCE_CREATE_SIGNALED_BIT` (main.cpp 566), nothing submitted,
`g_frame_index = 0` (main.cpp 50). -/
def Sync.init (slot_count : Nat) : Sync :=
  { slot_count := slot_count, g_frame_index := 0, pc := Pc.wait_for_fences,
    signaled := List.replicate slot_count true, pending := [] }

/-- One step: the CPU makes its next call, which returns `result`, or the GPU
completes the `k`-th submission it has not completed yet. -/
inductive Action where
  | cpu (result : VkResult)
  | gpu_complete (k : Nat)
  deriving DecidableEq, Repr

/-- The position after a call guarded by `check_vk`. -/
def after_check (result : VkResult) (next : Pc) : Pc :=
  match check_vk result with
  | some _ => Pc.exited
  | none => next

/-- The CPU makes the call at `s.pc` and the call returns `result`; `none` when
the step cannot happen: `vkWaitForFences` with an unbounded timeout does not
return `VK_SUCCESS` while the slot's fence is unsignaled, and an exited process
makes no call. -/
def cpu_step (s : Sync) (result : VkResult) : Option Sync :=
  match s.pc with
  | Pc.wait_for_fences =>
    if result = VK_SUCCESS ∧ s.signaled[s.g_frame_index]? ≠ some true then none
    else some { s with pc := after_check result Pc.reset_fences }
  | Pc.reset_fences =>
    match check_vk result with
    | some _ => some { s with pc := Pc.exited }
    | none => some { s with signaled := s.signaled.set s.g_frame_index false,
                            pc := Pc.acquire_next_image }
  | Pc.acquire_next_image => some { s with pc := after_check result Pc.reset_command_buffer }
  | Pc.reset_command_buffer => some { s with pc := after_check result Pc.begin_command_buffer }
  | Pc.begin_command_buffer => some { s with pc := Pc.record }
  | Pc.record => some { s with pc := Pc.end_command_buffer }
  | Pc.end_command_buffer => some { s with pc := Pc.queue_submit }
  | Pc.queue_submit =>
    match check_vk result with
    | some _ => some { s with pc := Pc.exited }
    | none => some { s with pending := s.pending ++ [s.g_frame_index],
                            pc := Pc.queue_present }
  | Pc.queue_present => some { s with pc := after_check result Pc.advance }
  | Pc.advance =>
    some { s with g_frame_index := ((s.g_frame_index + 1) % 2 ^ 32) % s.slot_count,
                  pc := Pc.wait_for_fences }
  | Pc.exited => none

/-- The GPU completes the `k`-th submission it has not completed yet and signals
the fence of the slot that made it. -/
def gpu_step (s : Sync) (k : Nat) : Option Sync :=
  match s.pending[k]? with
  | none => none
  | some slot =>
    some { s with pending := s.pending.eraseIdx k, signaled := s.signaled.set slot true }

/-- One step of the system. -/
def Sync.step (s : Sync) : Action → Option Sync
  | Action.cpu result => cpu_step s result
  | Action.gpu_complete k => gpu_step s k

/-- A sequence of steps; `none` when one of them cannot happen. -/
def Sync.run (s : Sync) : List Action → Option Sync
  | [] => some s
  | a :: rest =>
    match s.step a with
    | none => none
    | some s2 => s2.run rest

/-- The CPU is about to reset, begin, record into or end the command buffer of the
current slot. -/
def Pc.touches_command_buffer : Pc → Bool
  | Pc.reset_command_buffer => true
  | Pc.begin_command_buffer => true
  | Pc.record => true
  | Pc.end_command_buffer => true
  | _ => false

/-- Between the return of the fence wait and the submit. -/
def Pc.holds_slot : Pc → Bool
  | Pc.reset_fences => true
  | Pc.acquire_next_image => true
  | Pc.reset_command_buffer => true
  | Pc.begin_command_buffer => true
  | Pc.record => true
  | Pc.end_command_buffer => true
  | Pc.queue_submit => true
  | _ => false

/-- Between the fence reset and the submit. -/
def Pc.fence_was_reset : Pc → Bool
  | Pc.acquire_next_image => true
  | Pc.reset_command_buffer => true
  | Pc.begin_command_buffer => true
  | Pc.record => true
  | Pc.end_command_buffer => true
  | Pc.queue_submit => true
  | _ => false

/-- The invariant of the frame loop: the pending submissions are of distinct
slots whose fences are unsignaled, and while the CPU holds the current slot that
slot has no pending submission. -/
def Sync.inv (s : Sync) : Prop :=
  s.signaled.length = s.slot_count ∧
  s.pending.Nodup ∧
  (∀ k ∈ s.pending, k < s.slot_count ∧ s.signaled[k]? = some false) ∧
  (s.pc.holds_slot = true → s.g_frame_index < s.slot_count ∧ s.g_frame_index ∉ s.pending) ∧
  (s.pc.fence_was_reset = true → s.signaled[s.g_frame_index]? = some false)

/-- Two frames submitted with nothing completed, the CPU blocked on slot 0, then
the GPU completes the older submission and the CPU goes on to the begin. -/
def sample_actions : List Action :=
  List.replicate 20 (Action.cpu VK_SUCCESS) ++ [Action.gpu_complete 0] ++
  List.replicate 4 (Action.cpu VK_SUCCESS)

/-- The position of the CPU at which `render` makes a given call. -/
def Pc.of_call : Call → Pc
  | Call.vkWaitForFences _ _ _ => Pc.wait_for_fences
  | Call.vkResetFences _ => Pc.reset_fences
  | Call.vkAcquireNextImageKHR _ _ _ _ => Pc.acquire_next_image
  | Call.vkResetCommandBuffer _ => Pc.reset_command_buffer
  | Call.vkBeginCommandBuffer _ => Pc.begin_command_buffer
  | Call.vkEndCommandBuffer _ => Pc.end_command_buffer
  | Call.vkQueueSubmit2 _ _ _ _ _ => Pc.queue_submit
  | Call.vkQueuePresentKHR _ _ _ _ => Pc.queue_present
  | Call.exit _ => Pc.exited
  | _ => Pc.record

/-! ## Layout tracking (main.cpp 213-226, 294-330, 733-744)

The layout each image is in, followed through the recorded commands in the order
they are recorded, which is the order the single queue executes them in. -/

/-- The tracked layout of every image, by handle. -/
abbrev Layouts := Handle → VkImageLayout

/-- Every image starts in `UNDEFINED`. -/
def Layouts.initial : Layouts := fun _ => VkImageLayout.UNDEFINED

/-- A barrier may declare `UNDEFINED` (the contents are discarded) or the layout
the image is in. -/
def barrier_old_layout_ok (t : Layouts) (b : ImageBarrier) : Bool :=
  b.oldLayout = VkImageLayout.UNDEFINED || b.oldLayout = t b.image

/-- What a recorded command requires of the tracked layouts: a barrier declares a
valid old layout; the dispatch writes the storage image of the descriptor set,
`g_wr_image`, bound with layout `GENERAL` (main.cpp 626); the blit reads its
source in `TRANSFER_SRC_OPTIMAL` and writes its destination in
`TRANSFER_DST_OPTIMAL`. -/
def layout_check (g : Globals) (t : Layouts) : Call → Bool
  | Call.vkCmdPipelineBarrier _ _ _ _ _ barriers => barriers.all (barrier_old_layout_ok t)
  | Call.vkCmdDispatch _ _ _ _ => t g.g_wr_image.handle = VkImageLayout.GENERAL
  | Call.vkCmdBlitImage2 _ src _ dst _ _ _ =>
    t src = VkImageLayout.TRANSFER_SRC_OPTIMAL && t dst = VkImageLayout.TRANSFER_DST_OPTIMAL
  | _ => true

/-- The tracked layouts after a command: a barrier moves its images to their new
layout, no other command changes a layout. -/
def layout_after (t : Layouts) : Call → Layouts
  | Call.vkCmdPipelineBarrier _ _ _ _ _ barriers =>
    barriers.foldl (fun t2 b => Function.update t2 b.image b.newLayout) t
  | _ => t

/-- Follows the layouts through a list of commands: whether every command found
the layouts it requires, and the layouts at the end. -/
def track (g : Globals) : Layouts → List Call → Bool × Layouts
  | t, [] => (true, t)
  | t, c :: rest =>
    let r := track g (layout_after t c) rest
    (layout_check g t c && r.1, r.2)

/-- The calls of successive `render`s (the loop of main.cpp 804-814), up to and
including the first that does not return. -/
def frames_calls (g : Globals) : List FrameResults → List Call
  | [] => []
  | r :: rs =>
    match (render g r).outcome with
    | Outcome.returned g2 => (render g r).calls ++ frames_calls g2 rs
    | _ => (render g r).calls

/-! ## Shader loading (main.cpp 183-211) -/

/-- What `get_file_data` leaves behind: the length of the returned vector in 32-bit
words, the bytes its storage holds after the read, and the byte count that
`file.read` was asked to store from the start of that storage. -/
structure FileData where
  buffer_size : Nat
  stored : List Nat
  read_count : Nat
  deriving DecidableEq, Repr

/-- A value, or the exit code of the process when a check ended it. -/
inductive OrExit (α : Type) where
  | exit (code : Nat)
  | value (a : α)
  deriving DecidableEq, Repr

/-- `get_file_data` (main.cpp 183-197).  `file` is `none` when the file cannot be
opened, else its bytes; `file_size` is a `size_t`.  The vector gets
`file_size / sizeof(uint32_t)` words and the read is asked for `file_size` bytes;
`stored` keeps the bytes that land inside the vector. -/
def get_file_data (file : Option (List Nat)) : OrExit FileData :=
  match exit_if file.isNone with
  | some code => OrExit.exit code
  | none =>
    let content := file.getD []
    let file_size := content.length % 2 ^ 64
    let buffer_size := file_size / 4
    OrExit.value
      { buffer_size := buffer_size, stored := content.take (4 * buffer_size),
        read_count := file_size }

/-- The fields of `VkShaderModuleCreateInfo` that the program sets. -/
structure VkShaderModuleCreateInfo where
  codeSize : Nat
  pCode : List Nat
  deriving DecidableEq, Repr

/-- The `shader_info` of `create_shader_module` (main.cpp 202-207):
`codeSize = data.size() * sizeof(uint32_t)` in `size_t` arithmetic. -/
def shader_module_create_info (data : FileData) : VkShaderModuleCreateInfo :=
  { codeSize := (data.buffer_size * 4) % 2 ^ 64, pCode := data.stored }

/-- `create_shader_module` (main.cpp 199-211): the create info passed to
`vkCreateShaderModule`, which returns `result` and the module handle. -/
def create_shader_module (file : Option (List Nat)) (result : VkResult)
    (shader_module : Handle) : OrExit (VkShaderModuleCreateInfo × Handle) :=
  match get_file_data file with
  | OrExit.exit code => OrExit.exit code
  | OrExit.value data =>
    match check_vk result with
    | some code => OrExit.exit code
    | none => OrExit.value (shader_module_create_info data, shader_module)

/-! ## main (main.cpp 798-819) -/

/-- The `type` of an `SDL_Event`. -/
abbrev SDL_EventType := Nat

def SDL_EVENT_QUIT : SDL_EventType := 0x100

/-- The inner loop of main.cpp 806-811 over the events that `SDL_PollEvent` hands
out before it returns false: `quit` becomes true at a quit event and is never
cleared. -/
def poll_events (quit : Bool) (batch : List SDL_EventType) : Bool :=
  batch.foldl (fun q event => if event = SDL_EVENT_QUIT then true else q) quit

/-- How the loop of `main` ends: `quit` was set and the loop condition failed,
`render` ended the process, `render` ran into undefined behaviour, or the input
given to the model ran out while the loop was still running. -/
inductive LoopEnd where
  | quit (g : Globals)
  | exited (code : Nat)
  | undefined_behaviour
  | still_running (g : Globals)
  deriving DecidableEq, Repr

/-- The loop `while (!quit) { poll; render(); }` of main.cpp 803-814, entered with
`quit = false`.  Each element of the input is what one iteration receives: the
events it polls and what the driver returns to its `render`.  The result is the
run of each `render` called, in order, and how the loop ended. -/
def main_loop (g : Globals) : List (List SDL_EventType × FrameResults) → List Run × LoopEnd
  | [] => ([], LoopEnd.still_running g)
  | (batch, r) :: rest =>
    let quit := poll_events false batch
    let run := render g r
    match run.outcome with
    | Outcome.returned g2 =>
      if quit then ([run], LoopEnd.quit g2)
      else (run :: (main_loop g2 rest).1, (main_loop g2 rest).2)
    | Outcome.exited code => ([run], LoopEnd.exited code)
    | Outcome.undefined_behaviour => ([run], LoopEnd.undefined_behaviour)

/-- How `main` ends. -/
inductive MainEnd where
  | returned (code : Nat)
  | exited (code : Nat)
  | undefined_behaviour
  | aborted
  | still_running
  deriving DecidableEq, Repr

/-- The frames rendered, the teardown if `main` reached it, and how `main` ended. -/
structure MainRun where
  frames : List Run
  teardown : Option TeardownRun
  ending : MainEnd
  deriving DecidableEq, Repr

/-- `main` (main.cpp 798-819) from the point where `init_SDL` and `init_vk` have
returned and left the globals `g`: the loop, then `release_resources`, then
`return 0`. -/
def main (g : Globals) (func_found : Bool)
    (input : List (List SDL_EventType × FrameResults)) : MainRun :=
  match (main_loop g input).2 with
  | LoopEnd.quit g2 =>
    let teardown := release_resources g2 func_found
    { frames := (main_loop g input).1, teardown := some teardown,
      ending := if teardown.completed then MainEnd.returned 0 else MainEnd.aborted }
  | LoopEnd.exited code =>
    { frames := (main_loop g input).1, teardown := none, ending := MainEnd.exited code }
  | LoopEnd.undefined_behaviour =>
    { frames := (main_loop g input).1, teardown := none,
      ending := MainEnd.undefined_behaviour }
  | LoopEnd.still_running _ =>
    { frames := (main_loop g input).1, teardown := none, ending := MainEnd.still_running }

/-- The globals are as a successful start-up leaves them for `count` images and the
slot index is in range. -/
def frame_ready (g : Globals) (count : Nat) : Prop :=
  initialised g count ∧ g.g_frame_index < count

instance frame_ready.decidable (g : Globals) (count : Nat) : Decidable (frame_ready g count) := by
  unfold frame_ready; infer_instance

/-- The globals after `k` completed frames. -/
def advance_by : Nat → Globals → Globals
  | 0, g => g
  | k + 1, g => advance_by k (advance g)

/-! ## Queue family selection (main.cpp 401-462) -/

/-- The fields of `VkQueueFamilyProperties` the program reads. -/
structure VkQueueFamilyProperties where
  queueFlags : Nat
  queueCount : Nat
  deriving DecidableEq, Repr

def VK_QUEUE_GRAPHICS_BIT : Nat := 0x1
def VK_QUEUE_COMPUTE_BIT : Nat := 0x2
def VK_QUEUE_TRANSFER_BIT : Nat := 0x4

/-- `std::find_if` over a vector: the offset from `begin()` of the first element
satisfying the predicate, or the offset of `end()` when there is none. -/
def find_if {α : Type} (pred : α → Bool) : List α → Nat
  | [] => 0
  | x :: rest => if pred x then 0 else find_if pred rest + 1

/-- `std::distance(first, last)` for random-access iterators given by their
offsets from `begin()`: `last - first`, a signed `ptrdiff_t`. -/
def std_distance (first last : Nat) : Int :=
  (last : Int) - (first : Int)

/-- The conversion `static_cast<uint32_t>` of a signed value. -/
def to_uint32 (x : Int) : Nat :=
  Int.toNat (x % 2 ^ 32)

/-- The state change of `create_device_and_get_graphics_queue` (main.cpp 401-462)
for the queue families the driver reports, the result of `vkCreateDevice` and the
handles it and `vkGetDeviceQueue` return.  Line 418 calls
`std::distance(it, queue_families.begin())`, the iterator first. -/
def create_device_and_get_graphics_queue_run (g : Globals)
    (queue_families : List VkQueueFamilyProperties) (create_device : VkResult)
    (device queue : Handle) : Outcome :=
  let it := find_if (fun queue_family =>
    queue_family.queueFlags &&& VK_QUEUE_GRAPHICS_BIT != 0) queue_families
  match exit_if (it == queue_families.length) with
  | some code => Outcome.exited code
  | none =>
    let index := to_uint32 (std_distance it 0)
    match check_vk create_device with
    | some code => Outcome.exited code
    | none =>
      Outcome.returned { g with g_queue_family_index := index, g_device := device,
                                g_queue := queue }

/-- Two queue families: a compute-only one, then one with graphics, compute and
transfer. -/
def sample_queue_families : List VkQueueFamilyProperties :=
  [⟨VK_QUEUE_COMPUTE_BIT, 1⟩, ⟨0x7, 1⟩]

/-! ## Sample inputs -/

/-- Globals as `init_vk` leaves them before `init_frames`, for `count` presentable
images and a given extent, with distinct handles. -/
def sample_globals (count : Nat) (extent : VkExtent2D) : Globals :=
  { g_window := 1, g_instance := 2, g_debug_messenger := 3, g_surface := 4,
    g_physical_device := 5, g_queue := 6, g_queue_family_index := 0, g_device := 7,
    g_swapchain := 8, g_swapchain_image_format := 44, g_swapchain_image_count := count,
    g_swapchain_extent := extent,
    g_swapchain_images := (List.range count).map (fun i => 100 + i),
    g_swapchain_image_views := (List.range count).map (fun i => 200 + i),
    g_command_pool := 9, g_allocator := 10, g_descriptor_pool := 11,
    g_descriptor_set_layout := 12, g_descriptor_set := 13,
    g_frames := [], g_frame_index := 0,
    g_wr_pipeline := 14, g_wr_pipeline_layout := 15,
    g_wr_image := { handle := 16, view := 17, allocation := 18, format := 109,
                    extent := ⟨extent.width, extent.height, 1⟩ } }

/-- The objects the driver creates for slot `i`, distinct per slot. -/
def sample_created (i : Nat) : Frame :=
  { cmd := 1000 + i, fence := 2000 + i, image_available := 3000 + i,
    render_finished := 4000 + i }

/-- Every call returns `VK_SUCCESS` and the acquire returns `image_index`. -/
def ok_results (image_index : Nat) : FrameResults :=
  { waitForFences := VK_SUCCESS, resetFences := VK_SUCCESS, acquireNextImage := VK_SUCCESS,
    image_index := image_index, resetCommandBuffer := VK_SUCCESS,
    beginCommandBuffer := VK_SUCCESS, endCommandBuffer := VK_SUCCESS,
    queueSubmit2 := VK_SUCCESS, queuePresent := VK_SUCCESS }

/-- Three presentable images of 500 by 500, after `init_frames`. -/
def sample_state : Globals :=
  init_frames (sample_globals 3 ⟨500, 500⟩) sample_created

/-- The sample frame results with the acquire returning the positive code
`VK_SUBOPTIMAL_KHR`. -/
def acquire_suboptimal : FrameResults :=
  { ok_results 0 with acquireNextImage := VK_SUBOPTIMAL_KHR }

/-- The sample frame results with `vkBeginCommandBuffer` failing. -/
def begin_fails : FrameResults :=
  { ok_results 0 with beginCommandBuffer := VK_ERROR_OUT_OF_HOST_MEMORY }

/-- The sample frame results with `vkEndCommandBuffer` failing. -/
def end_fails : FrameResults :=
  { ok_results 0 with endCommandBuffer := VK_ERROR_OUT_OF_DEVICE_MEMORY }

/-! # Theorems -/

/-! ## Lemmas on `render` -/

theorem check_vk_success : check_vk VK_SUCCESS = none := by
  simp [check_vk, exit_if]

theorem check_vk_eq_none_iff (x : VkResult) : check_vk x = none ↔ x = VK_SUCCESS := by
  simp [check_vk, exit_if]

theorem check_vk_of_ne (x : VkResult) (h : x ≠ VK_SUCCESS) : check_vk x = some 1 := by
  simp [check_vk, exit_if, h]

/-- A frame whose guarded calls all succeed makes exactly `completed_calls` and
returns with the slot index advanced. -/
theorem render_completed (g : Globals) (r : FrameResults) (frame : Frame) (img : Handle)
    (hf : g.g_frames[g.g_frame_index]? = some frame) (hr : r.checked_ok)
    (hi : g.g_swapchain_images[r.image_index]? = some img)
    (hn : g.g_swapchain_image_count ≠ 0) :
    render g r = ⟨completed_calls g frame r.image_index img, Outcome.returned (advance g)⟩ := by
  obtain ⟨h1, h2, h3, h4, h5, h6⟩ := hr
  simp [render, hf, hi, hn, h1, h2, h3, h4, h5, h6, check_vk_success, completed_calls, advance]

/-- When `render` returns, the globals it leaves are `advance g`. -/
theorem render_returned (g g2 : Globals) (r : FrameResults)
    (h : (render g r).outcome = Outcome.returned g2) : g2 = advance g := by
  unfold render at h
  repeat' (split at h)
  all_goals first
    | (simp [Run.exit_after] at h; done)
    | (simp only [Outcome.returned.injEq] at h; exact h.symm)

/-- From any state whose index is in range, the completed frames use the slots
`g_frame_index + k` modulo the slot count. -/
theorem slots_used_from (rs : List FrameResults) :
    ∀ g : Globals, g.g_frames.length = g.g_swapchain_image_count →
      g.g_swapchain_image_count < 2 ^ 32 →
      g.g_frame_index < g.g_swapchain_image_count →
      (∀ r ∈ rs, r.checked_ok ∧ r.image_index < g.g_swapchain_images.length) →
      slots_used g rs =
        (List.range rs.length).map (fun k => (g.g_frame_index + k) % g.g_swapchain_image_count) := by
  induction rs with
  | nil => intro g _ _ _ _; simp [slots_used]
  | cons r rs ih =>
    intro g hlen h32 hidx hok
    have hr := hok r (List.mem_cons_self _ _)
    have hf : g.g_frames[g.g_frame_index]? = some (g.g_frames[g.g_frame_index]) :=
      List.getElem?_eq_getElem (by omega)
    have hi : g.g_swapchain_images[r.image_index]? = some (g.g_swapchain_images[r.image_index]) :=
      List.getElem?_eq_getElem hr.2
    have hrun := render_completed g r _ _ hf hr.1 hi (by omega)
    have hnext : (g.g_frame_index + 1) % 2 ^ 32 % g.g_swapchain_image_count
        = (g.g_frame_index + 1) % g.g_swapchain_image_count := by
      have hlt : g.g_frame_index + 1 < 2 ^ 32 := by omega
      rw [Nat.mod_eq_of_lt hlt]
    have ih2 := ih (advance g) (by simpa [advance] using hlen) (by simpa [advance] using h32)
      (by simp only [advance]; exact Nat.mod_lt _ (by omega))
      (fun r2 h2 => by simpa [advance] using hok r2 (List.mem_cons_of_mem _ h2))
    simp only [slots_used, hrun, ih2, List.length_cons, List.range_succ_eq_map, List.map_cons,
      List.map_map]
    congr 1
    · simp [Nat.mod_eq_of_lt hidx]
    · apply List.map_congr_left
      intro k _
      simp only [advance, hnext, Function.comp, Nat.succ_eq_add_one]
      rw [Nat.mod_add_mod]
      congr 1
      omega

/-- C1: after `init_frames` with `N = g_swapchain_image_count` slots, `1 ≤ N < 2^32`,
and `g_frame_index = 0`, every frame of a run of successful frames completes, the
`k`-th completed frame (0-based) uses slot `k mod N`, and that index is a valid
position in `g_frames`. -/
theorem C1_slot_index_round_robin (g : Globals) (created : Nat → Frame)
    (rs : List FrameResults)
    (hN : 1 ≤ g.g_swapchain_image_count) (h32 : g.g_swapchain_image_count < 2 ^ 32)
    (h0 : g.g_frame_index = 0)
    (hok : ∀ r ∈ rs, r.checked_ok ∧ r.image_index < g.g_swapchain_images.length) :
    (init_frames g created).g_frames.length = g.g_swapchain_image_count ∧
    slots_used (init_frames g created) rs =
      (List.range rs.length).map (fun k => k % g.g_swapchain_image_count) ∧
    ∀ s ∈ slots_used (init_frames g created) rs, s < (init_frames g created).g_frames.length := by
  have hlen : (init_frames g created).g_frames.length = g.g_swapchain_image_count := by
    simp [init_frames]
  have h := slots_used_from rs (init_frames g created) hlen (by simpa [init_frames] using h32)
    (by simp only [init_frames]; omega) (by simpa [init_frames] using hok)
  have hcount : (init_frames g created).g_swapchain_image_count = g.g_swapchain_image_count := rfl
  have hidx : (init_frames g created).g_frame_index = 0 := h0
  simp only [hcount, hidx, Nat.zero_add] at h
  refine ⟨hlen, h, ?_⟩
  intro s hs
  rw [h] at hs
  simp only [List.mem_map, List.mem_range] at hs
  obtain ⟨k, _, rfl⟩ := hs
  rw [hlen]
  exact Nat.mod_lt _ (by omega)

/-- C1 at three slots and ten successful frames: the slots are 0,1,2,0,1,2,0,1,2,0. -/
theorem C1_slot_index_round_robin_witness :
    (init_frames (sample_globals 3 ⟨500, 500⟩) sample_created).g_frames.length = 3 ∧
    slots_used (init_frames (sample_globals 3 ⟨500, 500⟩) sample_created)
      (List.replicate 10 (ok_results 0)) = [0, 1, 2, 0, 1, 2, 0, 1, 2, 0] ∧
    ∀ s ∈ slots_used (init_frames (sample_globals 3 ⟨500, 500⟩) sample_created)
      (List.replicate 10 (ok_results 0)),
      s < (init_frames (sample_globals 3 ⟨500, 500⟩) sample_created).g_frames.length :=
  C1_slot_index_round_robin (sample_globals 3 ⟨500, 500⟩) sample_created
    (List.replicate 10 (ok_results 0)) (by decide) (by decide) rfl
    (by
      intro r hr
      rw [List.eq_of_mem_replicate hr]
      decide)

/-! ## Dispatch grid -/

/-- The conversions through `double` are exact: the count is the truncated
quotient of the wrapped sum. -/
theorem group_count_eq (dim : Nat) : group_count dim = ((dim + 15) % 2 ^ 32) / 16 := by
  simp only [group_count, Int.ceil_natCast, Int.cast_natCast, Int.floor_natCast, Int.toNat_ofNat]
  apply Nat.mod_eq_of_lt
  omega

/-- The ceiling of the exact quotient by 16 is the truncated quotient of `w + 15`. -/
theorem ceil_div_16 (w : Nat) : ⌈(w : ℚ) / 16⌉₊ = (w + 15) / 16 := by
  apply le_antisymm
  · rw [Nat.ceil_le, div_le_iff₀ (by norm_num)]
    have : w ≤ ((w + 15) / 16) * 16 := by omega
    exact_mod_cast this
  · have h := Nat.le_ceil ((w : ℚ) / 16)
    rw [div_le_iff₀ (by norm_num)] at h
    have h2 : w ≤ ⌈(w : ℚ) / 16⌉₊ * 16 := by exact_mod_cast h
    omega

/-- Without wrap-around the count is the ceiling of `dim / 16`. -/
theorem group_count_eq_ceil (dim : Nat) (h : dim + 15 < 2 ^ 32) :
    group_count dim = ⌈(dim : ℚ) / 16⌉₊ := by
  rw [group_count_eq, Nat.mod_eq_of_lt h, ceil_div_16]

/-- Every dispatch among the calls of `render` carries the counts computed from
the swapchain extent. -/
theorem dispatch_mem_render (g : Globals) (r : FrameResults) (cmd x y z : Nat)
    (h : Call.vkCmdDispatch cmd x y z ∈ (render g r).calls) :
    x = group_count g.g_swapchain_extent.width ∧
    y = group_count g.g_swapchain_extent.height ∧ z = 1 := by
  unfold render at h
  repeat' (split at h)
  all_goals
    simp [Run.exit_after, record_commands, record_compute, record_copy,
      transform_image_layout, blit_image] at h
  all_goals simp [h]

/-- A frame that reaches the recording records the dispatch. -/
theorem dispatch_recorded (g : Globals) (r : FrameResults) (frame : Frame)
    (hf : g.g_frames[g.g_frame_index]? = some frame) (hr : r.recording_reached) :
    Call.vkCmdDispatch frame.cmd (group_count g.g_swapchain_extent.width)
      (group_count g.g_swapchain_extent.height) 1 ∈ (render g r).calls := by
  obtain ⟨h1, h2, h3, h4⟩ := hr
  simp only [render, hf, h1, h2, h3, h4, check_vk_success]
  repeat' split
  all_goals
    simp [Run.exit_after, record_commands, record_compute, record_copy,
      transform_image_layout, blit_image]

/-- C2: when `width + 15` and `height + 15` fit in 32 bits, every dispatch that
`render` records has the counts `(ceil(width/16), ceil(height/16), 1)`, each count
is the least `n` with `16 * n ≥` the dimension, and a frame that reaches the
recording does record that dispatch. -/
theorem C2_dispatch_grid_is_ceiling (g : Globals) (r : FrameResults)
    (hw : g.g_swapchain_extent.width + 15 < 2 ^ 32)
    (hh : g.g_swapchain_extent.height + 15 < 2 ^ 32) :
    (∀ cmd x y z, Call.vkCmdDispatch cmd x y z ∈ (render g r).calls →
      x = ⌈(g.g_swapchain_extent.width : ℚ) / 16⌉₊ ∧
      y = ⌈(g.g_swapchain_extent.height : ℚ) / 16⌉₊ ∧ z = 1 ∧
      g.g_swapchain_extent.width ≤ 16 * x ∧
      (∀ n, g.g_swapchain_extent.width ≤ 16 * n → x ≤ n) ∧
      g.g_swapchain_extent.height ≤ 16 * y ∧
      (∀ n, g.g_swapchain_extent.height ≤ 16 * n → y ≤ n)) ∧
    (∀ frame, g.g_frames[g.g_frame_index]? = some frame → r.recording_reached →
      Call.vkCmdDispatch frame.cmd ⌈(g.g_swapchain_extent.width : ℚ) / 16⌉₊
        ⌈(g.g_swapchain_extent.height : ℚ) / 16⌉₊ 1 ∈ (render g r).calls) := by
  constructor
  · intro cmd x y z hmem
    obtain ⟨hx, hy, hz⟩ := dispatch_mem_render g r cmd x y z hmem
    have hx2 : x = (g.g_swapchain_extent.width + 15) / 16 := by
      rw [hx, group_count_eq, Nat.mod_eq_of_lt hw]
    have hy2 : y = (g.g_swapchain_extent.height + 15) / 16 := by
      rw [hy, group_count_eq, Nat.mod_eq_of_lt hh]
    refine ⟨by rw [hx, group_count_eq_ceil _ hw], by rw [hy, group_count_eq_ceil _ hh], hz,
      by omega, fun n hn => by omega, by omega, fun n hn => by omega⟩
  · intro frame hf hr
    rw [← group_count_eq_ceil _ hw, ← group_count_eq_ceil _ hh]
    exact dispatch_recorded g r frame hf hr

/-- C2 at the extent 500 by 500 with three slots: the recorded dispatch is 32 by 32 by 1. -/
theorem C2_dispatch_grid_is_ceiling_witness :
    Call.vkCmdDispatch 1000 ⌈((500 : Nat) : ℚ) / 16⌉₊ ⌈((500 : Nat) : ℚ) / 16⌉₊ 1
      ∈ (render sample_state (ok_results 0)).calls :=
  (C2_dispatch_grid_is_ceiling sample_state (ok_results 0) (by decide) (by decide)).2
    (sample_created 0) (by decide) (by decide)

/-- C3 refuted: for the extent 500 by 500 the recorded dispatch is not 33 by 33 by 1
(it is 32 by 32 by 1), and for 16 by 16 it is not 2 by 2 by 1 (it is 1 by 1 by 1). -/
theorem C3_counterexample :
    Call.vkCmdDispatch 1000 33 33 1 ∉ (render sample_state (ok_results 0)).calls ∧
    Call.vkCmdDispatch 1000 32 32 1 ∈ (render sample_state (ok_results 0)).calls ∧
    Call.vkCmdDispatch 1000 2 2 1 ∉
      (render (init_frames (sample_globals 3 ⟨16, 16⟩) sample_created) (ok_results 0)).calls ∧
    Call.vkCmdDispatch 1000 1 1 1 ∈
      (render (init_frames (sample_globals 3 ⟨16, 16⟩) sample_created) (ok_results 0)).calls := by
  decide

/-- C3 as amended: the division in `(dim + 15) / 16` truncates and `std::ceil` is
applied to its integral result, so each count is `floor((dim + 15) / 16)`, which
is `ceil(dim / 16)`; extent 500 gives 32, extent 16 gives 1, and a multiple of 16
gets exactly `dim / 16` groups, with no extra one. -/
theorem C3_dispatch_count_truncates (dim : Nat) (h : dim + 15 < 2 ^ 32) :
    group_count dim = (dim + 15) / 16 ∧
    group_count dim = ⌊((dim : ℚ) + 15) / 16⌋₊ ∧
    (16 ∣ dim → group_count dim = dim / 16) ∧
    group_count 500 = 32 ∧ group_count 16 = 1 := by
  have h1 : group_count dim = (dim + 15) / 16 := by
    rw [group_count_eq, Nat.mod_eq_of_lt h]
  refine ⟨h1, ?_, ?_, by decide, by decide⟩
  · rw [h1]
    have : ((dim : ℚ) + 15) / 16 = ((dim + 15 : ℕ) : ℚ) / ((16 : ℕ) : ℚ) := by push_cast; ring
    rw [this, Nat.floor_div_eq_div]
  · intro hd
    rw [h1]
    omega

/-- C3 as amended, at the extent 16: one group, not two. -/
theorem C3_dispatch_count_truncates_witness :
    group_count 16 = (16 + 15) / 16 ∧
    group_count 16 = ⌊(((16 : ℕ) : ℚ) + 15) / 16⌋₊ ∧
    (16 ∣ 16 → group_count 16 = 16 / 16) ∧
    group_count 500 = 32 ∧ group_count 16 = 1 :=
  C3_dispatch_count_truncates 16 (by decide)

/-! ## Recorded commands and CPU-side order -/

/-- C4: in every frame that reaches the recording, with acquired index `i` in
range, the barriers, the dispatch and the blit among the calls are, in order:
barrier(intermediate, UNDEFINED to GENERAL), dispatch, barrier(intermediate,
GENERAL to TRANSFER_SRC), barrier(image i, UNDEFINED to TRANSFER_DST), blit
intermediate to image i, barrier(image i, TRANSFER_DST to PRESENT_SRC); there are
exactly four barriers, each with one image barrier and both stage masks
ALL_COMMANDS. -/
theorem C4_recorded_barrier_order (g : Globals) (r : FrameResults) (frame : Frame)
    (img : Handle)
    (hf : g.g_frames[g.g_frame_index]? = some frame) (hr : r.recording_reached)
    (hi : g.g_swapchain_images[r.image_index]? = some img) :
    (render g r).calls.filter is_barrier_dispatch_blit =
      [ Call.vkCmdPipelineBarrier frame.cmd VK_PIPELINE_STAGE_ALL_COMMANDS_BIT
          VK_PIPELINE_STAGE_ALL_COMMANDS_BIT 0 0
          [⟨VkImageLayout.UNDEFINED, VkImageLayout.GENERAL, VK_QUEUE_FAMILY_IGNORED,
            VK_QUEUE_FAMILY_IGNORED, g.g_wr_image.handle, VK_IMAGE_ASPECT_COLOR_BIT, 0, 1, 0, 1⟩],
        Call.vkCmdDispatch frame.cmd (group_count g.g_swapchain_extent.width)
          (group_count g.g_swapchain_extent.height) 1,
        Call.vkCmdPipelineBarrier frame.cmd VK_PIPELINE_STAGE_ALL_COMMANDS_BIT
          VK_PIPELINE_STAGE_ALL_COMMANDS_BIT 0 0
          [⟨VkImageLayout.GENERAL, VkImageLayout.TRANSFER_SRC_OPTIMAL, VK_QUEUE_FAMILY_IGNORED,
            VK_QUEUE_FAMILY_IGNORED, g.g_wr_image.handle, VK_IMAGE_ASPECT_COLOR_BIT, 0, 1, 0, 1⟩],
        Call.vkCmdPipelineBarrier frame.cmd VK_PIPELINE_STAGE_ALL_COMMANDS_BIT
          VK_PIPELINE_STAGE_ALL_COMMANDS_BIT 0 0
          [⟨VkImageLayout.UNDEFINED, VkImageLayout.TRANSFER_DST_OPTIMAL, VK_QUEUE_FAMILY_IGNORED,
            VK_QUEUE_FAMILY_IGNORED, img, VK_IMAGE_ASPECT_COLOR_BIT, 0, 1, 0, 1⟩],
        Call.vkCmdBlitImage2 frame.cmd g.g_wr_image.handle VkImageLayout.TRANSFER_SRC_OPTIMAL
          img VkImageLayout.TRANSFER_DST_OPTIMAL
          ⟨g.g_wr_image.extent.width, g.g_wr_image.extent.height, 1⟩
          ⟨g.g_swapchain_extent.width, g.g_swapchain_extent.height, 1⟩,
        Call.vkCmdPipelineBarrier frame.cmd VK_PIPELINE_STAGE_ALL_COMMANDS_BIT
          VK_PIPELINE_STAGE_ALL_COMMANDS_BIT 0 0
          [⟨VkImageLayout.TRANSFER_DST_OPTIMAL, VkImageLayout.PRESENT_SRC_KHR,
            VK_QUEUE_FAMILY_IGNORED, VK_QUEUE_FAMILY_IGNORED, img,
            VK_IMAGE_ASPECT_COLOR_BIT, 0, 1, 0, 1⟩] ] ∧
    (∀ cmd src dst m b ibs, Call.vkCmdPipelineBarrier cmd src dst m b ibs ∈ (render g r).calls →
      src = VK_PIPELINE_STAGE_ALL_COMMANDS_BIT ∧ dst = VK_PIPELINE_STAGE_ALL_COMMANDS_BIT ∧
      ibs.length = 1) := by
  obtain ⟨h1, h2, h3, h4⟩ := hr
  constructor
  · simp only [render, hf, hi, h1, h2, h3, h4, check_vk_success]
    repeat' split
    all_goals
      simp [Run.exit_after, record_commands, record_compute, record_copy,
        transform_image_layout, blit_image, is_barrier_dispatch_blit, List.filter]
  · intro cmd src dst m b ibs hmem
    simp only [render, hf, hi, h1, h2, h3, h4, check_vk_success] at hmem
    repeat' (split at hmem)
    all_goals
      simp [Run.exit_after, record_commands, record_compute, record_copy,
        transform_image_layout, blit_image] at hmem
    all_goals
      rcases hmem with h | h | h | h
      all_goals simp [h]

/-- C4 at the sample state with acquired index 1 (image handle 101). -/
theorem C4_recorded_barrier_order_witness :
    ((render sample_state (ok_results 1)).calls.filter is_barrier_dispatch_blit).map
        (fun c => match c with
          | Call.vkCmdPipelineBarrier _ _ _ _ _ [b] => some (b.image, b.oldLayout, b.newLayout)
          | _ => none) =
      [ some (16, VkImageLayout.UNDEFINED, VkImageLayout.GENERAL), none,
        some (16, VkImageLayout.GENERAL, VkImageLayout.TRANSFER_SRC_OPTIMAL),
        some (101, VkImageLayout.UNDEFINED, VkImageLayout.TRANSFER_DST_OPTIMAL), none,
        some (101, VkImageLayout.TRANSFER_DST_OPTIMAL, VkImageLayout.PRESENT_SRC_KHR) ] := by
  rw [(C4_recorded_barrier_order sample_state (ok_results 1) (sample_created 0) 101
    (by decide) (by decide) (by decide)).1]
  decide

/-- C5: in a frame using slot `frame` whose guarded calls succeed, the calls are,
in order, wait on the slot's fence, reset it, acquire signalling the slot's
`image_available`, reset the slot's command buffer, begin it, the recorded
commands (all into that command buffer), end it, submit it waiting on exactly
`image_available`, signalling exactly `render_finished` and fenced by the slot's
fence, present waiting on exactly `render_finished` with the acquired index; then
the slot index advances.  Whatever the results, the calls other than `exit` are a
prefix of that sequence. -/
theorem C5_cpu_call_order (g : Globals) (r : FrameResults) (frame : Frame) (img : Handle)
    (hf : g.g_frames[g.g_frame_index]? = some frame)
    (hi : g.g_swapchain_images[r.image_index]? = some img) :
    (r.checked_ok → g.g_swapchain_image_count ≠ 0 →
      (render g r).calls =
        [ Call.vkWaitForFences frame.fence true UINT64_MAX,
          Call.vkResetFences frame.fence,
          Call.vkAcquireNextImageKHR g.g_swapchain UINT64_MAX frame.image_available
            VK_NULL_HANDLE,
          Call.vkResetCommandBuffer frame.cmd,
          Call.vkBeginCommandBuffer frame.cmd ]
        ++ record_commands g frame img ++
        [ Call.vkEndCommandBuffer frame.cmd,
          Call.vkQueueSubmit2 g.g_queue
            [(frame.image_available, VK_PIPELINE_STAGE_2_COLOR_ATTACHMENT_OUTPUT_BIT)]
            [frame.cmd]
            [(frame.render_finished, VK_PIPELINE_STAGE_2_ALL_GRAPHICS_BIT)]
            frame.fence,
          Call.vkQueuePresentKHR g.g_queue [frame.render_finished] g.g_swapchain
            r.image_index ] ∧
      (render g r).outcome = Outcome.returned
        { g with g_frame_index :=
            (g.g_frame_index + 1) % 2 ^ 32 % g.g_swapchain_image_count }) ∧
    (∀ c ∈ record_commands g frame img, recorded_into c = some frame.cmd) ∧
    ((render g r).calls.filter (fun c => !is_exit c)
      <+: completed_calls g frame r.image_index img) := by
  refine ⟨?_, ?_, ?_⟩
  · intro hok hn
    rw [render_completed g r frame img hf hok hi hn]
    exact ⟨rfl, rfl⟩
  · intro c hc
    simp only [record_commands, record_compute, record_copy, transform_image_layout,
      blit_image, List.cons_append, List.nil_append, List.mem_cons, List.mem_singleton,
      List.not_mem_nil, or_false] at hc
    rcases hc with h | h | h | h | h | h | h | h | h | h
    all_goals simp [h, recorded_into]
  · simp only [render, hf, hi]
    repeat' split
    all_goals
      simp [Run.exit_after, completed_calls, record_commands, record_compute, record_copy,
        transform_image_layout, blit_image, is_exit, List.filter, List.prefix_iff_eq_take]

/-- C5 at the sample state, slot 0, acquired index 2: the calls other than the
recorded commands, and the advanced slot index. -/
theorem C5_cpu_call_order_witness :
    (render sample_state (ok_results 2)).calls.filter (fun c => (recorded_into c).isNone) =
      [ Call.vkWaitForFences 2000 true UINT64_MAX,
        Call.vkResetFences 2000,
        Call.vkAcquireNextImageKHR 8 UINT64_MAX 3000 VK_NULL_HANDLE,
        Call.vkResetCommandBuffer 1000,
        Call.vkBeginCommandBuffer 1000,
        Call.vkEndCommandBuffer 1000,
        Call.vkQueueSubmit2 6 [(3000, VK_PIPELINE_STAGE_2_COLOR_ATTACHMENT_OUTPUT_BIT)] [1000]
          [(4000, VK_PIPELINE_STAGE_2_ALL_GRAPHICS_BIT)] 2000,
        Call.vkQueuePresentKHR 6 [4000] 8 2 ] ∧
    (render sample_state (ok_results 2)).outcome =
      Outcome.returned { sample_state with g_frame_index := 1 } := by
  have h := (C5_cpu_call_order sample_state (ok_results 2) (sample_created 0) 102
    (by decide) (by decide)).1 (by decide) (by decide)
  rw [h.1, h.2]
  decide

/-! ## Failure handling -/

theorem check_vk_code (x : VkResult) (code : Nat) (h : check_vk x = some code) : code = 1 := by
  simp only [check_vk, exit_if] at h
  split at h
  · cases h; rfl
  · cases h

theorem exit_after_outcome (calls : List Call) (code : Nat) :
    (Run.exit_after calls code).outcome = Outcome.exited code ∧
    (Run.exit_after calls code).calls.getLast? = some (Call.exit code) := by
  simp [Run.exit_after]

/-- When one of the six calls guarded by `check_vk` returns anything but
`VK_SUCCESS`, the process exits with code 1, `exit` is the last call and directly
follows the failing call, and `render` does not return. -/
theorem render_checked_failure_exits (g : Globals) (r : FrameResults) (frame : Frame)
    (img : Handle)
    (hf : g.g_frames[g.g_frame_index]? = some frame)
    (hi : g.g_swapchain_images[r.image_index]? = some img)
    (hfail : ¬ r.checked_ok) :
    (render g r).outcome = Outcome.exited 1 ∧
    (render g r).calls.getLast? = some (Call.exit 1) := by
  simp only [render, hf, hi]
  repeat' split
  all_goals first
    | (rename_i hcode
       have h1 := check_vk_code _ _ hcode
       subst h1
       exact exit_after_outcome _ 1)
    | (exfalso
       apply hfail
       simp_all [FrameResults.checked_ok, check_vk_eq_none_iff])

/-- A guarded call at work: the acquire returning `VK_SUBOPTIMAL_KHR` ends the
process with code 1 right after the acquire; nothing is recorded or submitted. -/
theorem render_suboptimal_acquire_exits :
    render sample_state acquire_suboptimal =
      ⟨[ Call.vkWaitForFences 2000 true UINT64_MAX, Call.vkResetFences 2000,
         Call.vkAcquireNextImageKHR 8 UINT64_MAX 3000 VK_NULL_HANDLE, Call.exit 1 ],
       Outcome.exited 1⟩ := by
  decide

/-- C6, the code at a failing input: with `vkBeginCommandBuffer` (or
`vkEndCommandBuffer`) returning an error and every other call succeeding, `render`
makes no `exit`, goes on to record, submit and present, and returns with
`g_frame_index` advanced from 0 to 1; in general `render` never reads either
result. -/
theorem C6_unchecked_begin_end :
    (render sample_state begin_fails).outcome = Outcome.returned (advance sample_state) ∧
    (advance sample_state).g_frame_index = 1 ∧
    (render sample_state begin_fails).calls.all (fun c => !is_exit c) = true ∧
    (render sample_state begin_fails).calls = (render sample_state (ok_results 0)).calls ∧
    (render sample_state end_fails).outcome = Outcome.returned (advance sample_state) ∧
    (render sample_state end_fails).calls = (render sample_state (ok_results 0)).calls ∧
    (∀ (g : Globals) (r : FrameResults) (x y : VkResult),
      render g { r with beginCommandBuffer := x, endCommandBuffer := y } = render g r) := by
  refine ⟨by decide, by decide, by decide, by decide, by decide, by decide, ?_⟩
  intro g r x y
  rfl

/-! ## destroy -/

/-- C7: `destroy(Image)` passes its assertion exactly when handle, allocation and
view are all non-null, `destroy(Buffer)` exactly when handle and allocation are;
a successful destroy leaves every field null, so a second destroy fails the
assertion, as does a destroy of a default-initialised resource. -/
theorem C7_destroy_requires_valid (image : Image) (buffer : Buffer) :
    ((destroy_image image).isSome ↔
      image.handle ≠ VK_NULL_HANDLE ∧ image.allocation ≠ VK_NULL_HANDLE ∧
      image.view ≠ VK_NULL_HANDLE) ∧
    ((destroy_buffer buffer).isSome ↔
      buffer.handle ≠ VK_NULL_HANDLE ∧ buffer.allocation ≠ VK_NULL_HANDLE) ∧
    (∀ calls image2, destroy_image image = some (calls, image2) →
      image2 = ⟨0, 0, 0, 0, ⟨0, 0, 0⟩⟩ ∧ destroy_image image2 = none) ∧
    (∀ calls buffer2, destroy_buffer buffer = some (calls, buffer2) →
      buffer2 = ⟨0, 0⟩ ∧ destroy_buffer buffer2 = none) ∧
    destroy_image ⟨0, 0, 0, 0, ⟨0, 0, 0⟩⟩ = none ∧ destroy_buffer ⟨0, 0⟩ = none := by
  refine ⟨?_, ?_, ?_, ?_, by decide, by decide⟩
  · unfold destroy_image
    split <;> simp_all
  · unfold destroy_buffer
    split <;> simp_all
  · intro calls image2 h
    unfold destroy_image at h
    split at h
    · simp only [Option.some.injEq, Prod.mk.injEq] at h
      rw [← h.2]
      exact ⟨rfl, by decide⟩
    · cases h
  · intro calls buffer2 h
    unfold destroy_buffer at h
    split at h
    · simp only [Option.some.injEq, Prod.mk.injEq] at h
      rw [← h.2]
      exact ⟨rfl, by decide⟩
    · cases h

/-- C7 at a created image (handles 16, 17, 18) and a created buffer (handles 21, 22):
the first destroy passes and the second fails. -/
theorem C7_destroy_requires_valid_witness :
    destroy_image ⟨16, 17, 18, 109, ⟨500, 500, 1⟩⟩ =
      some ([DestroyCall.vkDestroyImageView 17, DestroyCall.vmaDestroyImage 16 18],
            ⟨0, 0, 0, 0, ⟨0, 0, 0⟩⟩) ∧
    destroy_image ⟨0, 0, 0, 0, ⟨0, 0, 0⟩⟩ = none ∧
    destroy_buffer ⟨21, 22⟩ = some ([DestroyCall.vmaDestroyBuffer 21 22], ⟨0, 0⟩) ∧
    destroy_buffer ⟨0, 0⟩ = none :=
  have h := C7_destroy_requires_valid ⟨16, 17, 18, 109, ⟨500, 500, 1⟩⟩ ⟨21, 22⟩
  ⟨by decide,
   (h.2.2.1 [DestroyCall.vkDestroyImageView 17, DestroyCall.vmaDestroyImage 16 18]
      ⟨0, 0, 0, 0, ⟨0, 0, 0⟩⟩ (by decide)).2,
   by decide,
   (h.2.2.2.1 [DestroyCall.vmaDestroyBuffer 21 22] ⟨0, 0⟩ (by decide)).2⟩

/-! ## Shutdown order -/

theorem squash_run (a : Group) (rest : List Group) (n : Nat) :
    squash (a :: (List.replicate n a ++ rest)) = squash (a :: rest) := by
  induction n with
  | zero => simp
  | succ n ih =>
    rw [List.replicate_succ, List.cons_append, squash, if_pos rfl, ih]

theorem replicate_append_cons (a : Group) (rest : List Group) (n : Nat) :
    List.replicate n a ++ a :: rest = a :: (List.replicate n a ++ rest) := by
  induction n with
  | zero => simp
  | succ n ih => rw [List.replicate_succ, List.cons_append, ih, List.cons_append]

theorem created_views_groups (n : Nat) :
    ((List.range n).map (fun i => InitCall.vkCreateImageView (Obj.swapchain_image_view i))).filterMap
      (fun c => (created c).bind group_of) = List.replicate n Group.swapchain_and_views := by
  induction n with
  | zero => simp
  | succ n ih =>
    rw [List.range_succ, List.map_append, List.filterMap_append, ih, List.replicate_succ']
    simp [created, group_of]

theorem created_frames_groups (n : Nat) :
    (init_frames_calls n).filterMap (fun c => (created c).bind group_of)
      = List.replicate (4 * n) Group.frame_slots := by
  unfold init_frames_calls
  induction n with
  | zero => simp
  | succ n ih =>
    rw [List.range_succ, List.flatMap_append, List.filterMap_append, ih]
    have : 4 * (n + 1) = 4 * n + 4 := by omega
    rw [this, List.replicate_add]
    simp [created, group_of, List.replicate]

theorem destroyed_views_groups (n : Nat) :
    ((List.range n).map (fun i => TeardownCall.vkDestroyImageView (Obj.swapchain_image_view i))).filterMap
      (fun c => (destroyed c).bind group_of) = List.replicate n Group.swapchain_and_views := by
  induction n with
  | zero => simp
  | succ n ih =>
    rw [List.range_succ, List.map_append, List.filterMap_append, ih, List.replicate_succ']
    simp [destroyed, group_of]

theorem destroyed_frames_groups (n : Nat) :
    ((List.range n).flatMap (fun i =>
       [ TeardownCall.vkDestroySemaphore (Obj.frame_image_available i),
         TeardownCall.vkDestroySemaphore (Obj.frame_render_finished i),
         TeardownCall.vkDestroyFence (Obj.frame_fence i),
         TeardownCall.vkFreeCommandBuffers Obj.command_pool (Obj.frame_cmd i) ])).filterMap
      (fun c => (destroyed c).bind group_of) = List.replicate (4 * n) Group.frame_slots := by
  induction n with
  | zero => simp
  | succ n ih =>
    rw [List.range_succ, List.flatMap_append, List.filterMap_append, ih]
    have : 4 * (n + 1) = 4 * n + 4 := by omega
    rw [this, List.replicate_add]
    simp [destroyed, group_of, List.replicate]

/-- The kinds in creation order, for at least one presentable image. -/
theorem created_groups_eq (count : Nat) (h : 1 ≤ count) :
    created_groups count =
      [ Group.window, Group.vk_instance, Group.debug_messenger, Group.surface, Group.device,
        Group.swapchain_and_views, Group.command_pool, Group.frame_slots, Group.allocator,
        Group.intermediate_image, Group.descriptor_pool, Group.descriptor_set_layout,
        Group.pipeline_layout, Group.pipeline ] := by
  obtain ⟨k, rfl⟩ : ∃ k, count = k + 1 := ⟨count - 1, by omega⟩
  have h4 : 4 * (k + 1) = (4 * k + 3) + 1 := by omega
  simp only [created_groups, startup, init_SDL, init_vk, create_instance, create_debug_messenger,
    create_surface, select_physical_device, create_device_and_get_graphics_queue,
    create_swapchain, create_command_pool, init_vma, init_wr, create_image,
    create_descriptor_resources, List.filterMap_append, created_views_groups,
    created_frames_groups, h4, List.replicate_succ]
  simp [created, group_of, squash, squash_run]

/-- The kinds in destruction order, for a fully created state with at least one
frame slot, when the destroy entry point of the debug extension is found. -/
theorem destroyed_groups_eq (g : Globals) (count : Nat) (hg : initialised g count)
    (h : 1 ≤ count) :
    destroyed_groups g true =
      [ Group.intermediate_image, Group.pipeline, Group.pipeline_layout,
        Group.descriptor_set_layout, Group.descriptor_pool, Group.allocator,
        Group.frame_slots, Group.command_pool, Group.swapchain_and_views, Group.device,
        Group.surface, Group.debug_messenger, Group.vk_instance, Group.window ] := by
  obtain ⟨_, hframes, _, hviews, h1, h2, h3⟩ := hg
  obtain ⟨k, rfl⟩ : ∃ k, count = k + 1 := ⟨count - 1, by omega⟩
  have h4 : 4 * (k + 1) = (4 * k + 3) + 1 := by omega
  have hd : destroy_image g.g_wr_image = some
      ([DestroyCall.vkDestroyImageView g.g_wr_image.view,
        DestroyCall.vmaDestroyImage g.g_wr_image.handle g.g_wr_image.allocation],
       Image.null) := by
    simp [destroy_image, h1, h2, h3]
  simp only [destroyed_groups, release_resources, hd, hframes, hviews,
    vkDestroyDebugUtilsMessengerEXT, if_true, List.filterMap_append, destroyed_views_groups,
    destroyed_frames_groups, h4, List.replicate_succ]
  simp [destroyed, group_of, squash, squash_run]

/-- C8 refuted at three presentable images: the destruction order is not the
reverse of the creation order; the intermediate image, created before the
descriptor pool and the pipeline, is destroyed first, while the reversed creation
order starts with the pipeline. -/
theorem C8_counterexample :
    initialised sample_state 3 ∧
    destroyed_groups sample_state true ≠ (created_groups 3).reverse ∧
    (destroyed_groups sample_state true).head? = some Group.intermediate_image ∧
    (created_groups 3).reverse.head? = some Group.pipeline := by
  decide

/-- C8 as amended: for a state left by a successful start-up with at least one
presentable image, the kinds of object are created in the order window, instance,
debug messenger, surface, device, swapchain and views, command pool, frame slots,
allocator, intermediate image, descriptor pool, descriptor set layout, pipeline
layout, pipeline, and `release_resources` destroys them in the reverse of that
order except that the intermediate image is destroyed first. -/
theorem C8_teardown_reverse_except_image (g : Globals) (count : Nat)
    (hg : initialised g count) (h : 1 ≤ count) :
    (release_resources g true).completed = true ∧
    destroyed_groups g true =
      Group.intermediate_image ::
        ((created_groups count).reverse.erase Group.intermediate_image) ∧
    created_groups count =
      [ Group.window, Group.vk_instance, Group.debug_messenger, Group.surface, Group.device,
        Group.swapchain_and_views, Group.command_pool, Group.frame_slots, Group.allocator,
        Group.intermediate_image, Group.descriptor_pool, Group.descriptor_set_layout,
        Group.pipeline_layout, Group.pipeline ] ∧
    destroyed_groups g true =
      [ Group.intermediate_image, Group.pipeline, Group.pipeline_layout,
        Group.descriptor_set_layout, Group.descriptor_pool, Group.allocator,
        Group.frame_slots, Group.command_pool, Group.swapchain_and_views, Group.device,
        Group.surface, Group.debug_messenger, Group.vk_instance, Group.window ] := by
  refine ⟨?_, ?_, created_groups_eq count h, destroyed_groups_eq g count hg h⟩
  · obtain ⟨_, _, _, _, h1, h2, h3⟩ := hg
    simp [release_resources, destroy_image, h1, h2, h3]
  · rw [created_groups_eq count h, destroyed_groups_eq g count hg h]
    decide

/-- C8 as amended, at the sample state with three presentable images. -/
theorem C8_teardown_reverse_except_image_witness :
    initialised sample_state 3 ∧
    destroyed_groups sample_state true =
      Group.intermediate_image ::
        ((created_groups 3).reverse.erase Group.intermediate_image) :=
  ⟨by decide, (C8_teardown_reverse_except_image sample_state 3 (by decide) (by decide)).2.1⟩

/-- C9: `release_resources` first waits for the device to be idle; when the
intermediate image is valid, every call between that wait and `vkDestroyDevice`
destroys or frees an object of the device, no call after `vkDestroyDevice` does,
and the image and its view, the pipeline, both layouts, the descriptor pool, the
allocator, every slot's semaphores, fence and command buffer, the command pool,
every swapchain view and the swapchain are all destroyed before the device.  When
the image is not valid the assertion of `destroy` stops the teardown right after
the wait, before any destroy. -/
theorem C9_wait_idle_first_device_after_children (g : Globals) (func_found : Bool) :
    (release_resources g func_found).calls.head? = some TeardownCall.vkDeviceWaitIdle ∧
    (destroy_image g.g_wr_image = none →
      (release_resources g func_found).calls =
        [TeardownCall.vkDeviceWaitIdle, TeardownCall.assert_fail]) ∧
    ((destroy_image g.g_wr_image).isSome = true →
      ∃ before after,
        (release_resources g func_found).calls =
          TeardownCall.vkDeviceWaitIdle :: before ++
            TeardownCall.vkDestroyDevice Obj.device :: after ∧
        (∀ c ∈ before, ∃ o, destroyed c = some o ∧ device_child o = true) ∧
        (∀ c ∈ after, ∀ o, destroyed c = some o → device_child o = false) ∧
        (∀ o ∈ [Obj.wr_image, Obj.wr_image_view, Obj.wr_pipeline, Obj.wr_pipeline_layout,
                Obj.descriptor_set_layout, Obj.descriptor_pool, Obj.allocator,
                Obj.command_pool, Obj.swapchain], o ∈ before.filterMap destroyed) ∧
        (∀ i, i < g.g_frames.length →
          Obj.frame_image_available i ∈ before.filterMap destroyed ∧
          Obj.frame_render_finished i ∈ before.filterMap destroyed ∧
          Obj.frame_fence i ∈ before.filterMap destroyed ∧
          Obj.frame_cmd i ∈ before.filterMap destroyed) ∧
        (∀ i, i < g.g_swapchain_image_views.length →
          Obj.swapchain_image_view i ∈ before.filterMap destroyed)) := by
  refine ⟨?_, ?_, ?_⟩
  · unfold release_resources
    split <;> rfl
  · intro h
    simp [release_resources, h]
  · intro h
    obtain ⟨x, hx⟩ := Option.isSome_iff_exists.mp h
    refine ⟨[ TeardownCall.vkDestroyImageView Obj.wr_image_view,
       TeardownCall.vmaDestroyImage Obj.wr_image,
       TeardownCall.vkDestroyPipeline Obj.wr_pipeline,
       TeardownCall.vkDestroyPipelineLayout Obj.wr_pipeline_layout,
       TeardownCall.vkDestroyDescriptorSetLayout Obj.descriptor_set_layout,
       TeardownCall.vkDestroyDescriptorPool Obj.descriptor_pool,
       TeardownCall.vmaDestroyAllocator Obj.allocator ]
     ++ (List.range g.g_frames.length).flatMap (fun i =>
       [ TeardownCall.vkDestroySemaphore (Obj.frame_image_available i),
         TeardownCall.vkDestroySemaphore (Obj.frame_render_finished i),
         TeardownCall.vkDestroyFence (Obj.frame_fence i),
         TeardownCall.vkFreeCommandBuffers Obj.command_pool (Obj.frame_cmd i) ])
     ++ [ TeardownCall.vkDestroyCommandPool Obj.command_pool ]
     ++ (List.range g.g_swapchain_image_views.length).map (fun i =>
       TeardownCall.vkDestroyImageView (Obj.swapchain_image_view i))
     ++ [ TeardownCall.vkDestroySwapchainKHR Obj.swapchain ],
     [ TeardownCall.vkDestroySurfaceKHR Obj.surface ]
     ++ vkDestroyDebugUtilsMessengerEXT func_found Obj.debug_messenger
     ++ [ TeardownCall.vkDestroyInstance Obj.vk_instance,
          TeardownCall.SDL_DestroyWindow Obj.window,
          TeardownCall.SDL_Quit ], ?_, ?_, ?_, ?_, ?_, ?_⟩
    · simp [release_resources, hx]
    · intro c hc
      simp only [List.mem_append, List.mem_cons, List.mem_singleton, List.not_mem_nil,
        or_false, List.mem_flatMap, List.mem_map, List.mem_range] at hc
      rcases hc with (((hc | ⟨i, _, hc⟩) | hc) | ⟨i, _, hc⟩) | hc
      · rcases hc with hc | hc | hc | hc | hc | hc | hc <;> subst hc <;>
          simp [destroyed, device_child]
      · rcases hc with hc | hc | hc | hc <;> subst hc <;> simp [destroyed, device_child]
      · subst hc; simp [destroyed, device_child]
      · subst hc; simp [destroyed, device_child]
      · subst hc; simp [destroyed, device_child]
    · intro c hc o ho
      cases func_found <;>
        simp only [vkDestroyDebugUtilsMessengerEXT, List.mem_append, List.mem_cons,
          List.mem_singleton, List.not_mem_nil, or_false, if_true, if_false,
          Bool.false_eq_true, false_or, or_false] at hc
      · rcases hc with hc | hc | hc | hc <;> subst hc <;>
          simp [destroyed] at ho <;> subst ho <;> rfl
      · rcases hc with (hc | hc) | hc | hc | hc <;> subst hc <;>
          simp [destroyed] at ho <;> subst ho <;> rfl
    · intro o ho
      simp only [List.mem_cons, List.mem_singleton, List.not_mem_nil, or_false] at ho
      rcases ho with ho | ho | ho | ho | ho | ho | ho | ho | ho <;> subst ho <;>
        simp [List.filterMap_append, destroyed]
    · intro i hi
      simp only [List.filterMap_append, List.mem_append, List.mem_filterMap, List.mem_flatMap,
        List.mem_range]
      refine ⟨?_, ?_, ?_, ?_⟩
      · exact Or.inl (Or.inl (Or.inl (Or.inr
          ⟨TeardownCall.vkDestroySemaphore (Obj.frame_image_available i), ⟨i, hi, by simp⟩, rfl⟩)))
      · exact Or.inl (Or.inl (Or.inl (Or.inr
          ⟨TeardownCall.vkDestroySemaphore (Obj.frame_render_finished i), ⟨i, hi, by simp⟩, rfl⟩)))
      · exact Or.inl (Or.inl (Or.inl (Or.inr
          ⟨TeardownCall.vkDestroyFence (Obj.frame_fence i), ⟨i, hi, by simp⟩, rfl⟩)))
      · exact Or.inl (Or.inl (Or.inl (Or.inr
          ⟨TeardownCall.vkFreeCommandBuffers Obj.command_pool (Obj.frame_cmd i),
            ⟨i, hi, by simp⟩, rfl⟩)))
    · intro i hi
      simp only [List.filterMap_append, List.mem_append, List.mem_filterMap, List.mem_map,
        List.mem_range]
      exact Or.inl (Or.inr ⟨_, ⟨i, hi, rfl⟩, rfl⟩)

/-- C9 at the sample state: the intermediate image is valid, so the teardown
splits around `vkDestroyDevice` as stated. -/
theorem C9_wait_idle_first_device_after_children_witness :
    (destroy_image sample_state.g_wr_image).isSome = true ∧
    ∃ before after,
      (release_resources sample_state true).calls =
        TeardownCall.vkDeviceWaitIdle :: before ++
          TeardownCall.vkDestroyDevice Obj.device :: after ∧
      (∀ c ∈ before, ∃ o, destroyed c = some o ∧ device_child o = true) ∧
      (∀ c ∈ after, ∀ o, destroyed c = some o → device_child o = false) := by
  refine ⟨by decide, ?_⟩
  obtain ⟨before, after, h1, h2, h3, _⟩ :=
    (C9_wait_idle_first_device_after_children sample_state true).2.2 (by decide)
  exact ⟨before, after, h1, h2, h3⟩

/-! ## Fences and frames in flight -/

theorem Sync.inv_init (n : Nat) : (Sync.init n).inv := by
  simp [Sync.inv, Sync.init, Pc.holds_slot, Pc.fence_was_reset]

theorem after_check_cases (result : VkResult) (next : Pc) :
    after_check result next = Pc.exited ∨
    (result = VK_SUCCESS ∧ after_check result next = next) := by
  unfold after_check
  split
  · exact Or.inl rfl
  · rename_i h
    exact Or.inr ⟨(check_vk_eq_none_iff result).mp h, rfl⟩

/-- Changing only the position keeps the invariant when the new position's
obligations hold. -/
theorem Sync.inv_set_pc (s : Sync) (pc2 : Pc) (h : s.inv)
    (h4 : pc2.holds_slot = true →
      s.g_frame_index < s.slot_count ∧ s.g_frame_index ∉ s.pending)
    (h5 : pc2.fence_was_reset = true → s.signaled[s.g_frame_index]? = some false) :
    Sync.inv { s with pc := pc2 } :=
  ⟨h.1, h.2.1, h.2.2.1, h4, h5⟩

theorem Sync.inv_exited (s : Sync) (h : s.inv) : Sync.inv { s with pc := Pc.exited } :=
  Sync.inv_set_pc s Pc.exited h (by simp [Pc.holds_slot]) (by simp [Pc.fence_was_reset])

theorem Sync.inv_cpu_step (s s2 : Sync) (result : VkResult) (h : s.inv)
    (hs : cpu_step s result = some s2) : s2.inv := by
  have hinv := h
  obtain ⟨hlen, hnd, hpend, hhold, hreset⟩ := h
  unfold cpu_step at hs
  split at hs
  · -- wait_for_fences
    split at hs
    · cases hs
    · rename_i hcond
      simp only [Option.some.injEq] at hs
      subst hs
      rcases after_check_cases result Pc.reset_fences with hx | ⟨hr, hx⟩
      · rw [hx]; exact Sync.inv_exited s hinv
      · rw [hx]
        have hsig : s.signaled[s.g_frame_index]? = some true := by
          by_contra hne
          exact hcond ⟨hr, hne⟩
        refine Sync.inv_set_pc s _ hinv (fun _ => ⟨?_, ?_⟩) (by simp [Pc.fence_was_reset])
        · have := (List.getElem?_eq_some_iff.mp hsig).1
          omega
        · intro hmem
          have := (hpend _ hmem).2
          rw [hsig] at this
          cases this
  · -- reset_fences
    rename_i hpc
    have hh := hhold (by rw [hpc]; rfl)
    split at hs
    · simp only [Option.some.injEq] at hs
      subst hs
      exact Sync.inv_exited s hinv
    · simp only [Option.some.injEq] at hs
      subst hs
      refine ⟨by simpa using hlen, hnd, ?_, fun _ => hh, fun _ => ?_⟩
      · intro k hk
        refine ⟨(hpend k hk).1, ?_⟩
        have hne : s.g_frame_index ≠ k := fun e => hh.2 (e ▸ hk)
        simp only [List.getElem?_set_ne hne]
        exact (hpend k hk).2
      · exact List.getElem?_set_self (by omega)
  · -- acquire_next_image
    rename_i hpc
    have hh := hhold (by rw [hpc]; rfl)
    have hr := hreset (by rw [hpc]; rfl)
    simp only [Option.some.injEq] at hs
    subst hs
    rcases after_check_cases result Pc.reset_command_buffer with hx | ⟨_, hx⟩
    · rw [hx]; exact Sync.inv_exited s hinv
    · rw [hx]; exact Sync.inv_set_pc s _ hinv (fun _ => hh) (fun _ => hr)
  · -- reset_command_buffer
    rename_i hpc
    have hh := hhold (by rw [hpc]; rfl)
    have hr := hreset (by rw [hpc]; rfl)
    simp only [Option.some.injEq] at hs
    subst hs
    rcases after_check_cases result Pc.begin_command_buffer with hx | ⟨_, hx⟩
    · rw [hx]; exact Sync.inv_exited s hinv
    · rw [hx]; exact Sync.inv_set_pc s _ hinv (fun _ => hh) (fun _ => hr)
  · -- begin_command_buffer
    rename_i hpc
    have hh := hhold (by rw [hpc]; rfl)
    have hr := hreset (by rw [hpc]; rfl)
    simp only [Option.some.injEq] at hs
    subst hs
    exact Sync.inv_set_pc s _ hinv (fun _ => hh) (fun _ => hr)
  · -- record
    rename_i hpc
    have hh := hhold (by rw [hpc]; rfl)
    have hr := hreset (by rw [hpc]; rfl)
    simp only [Option.some.injEq] at hs
    subst hs
    exact Sync.inv_set_pc s _ hinv (fun _ => hh) (fun _ => hr)
  · -- end_command_buffer
    rename_i hpc
    have hh := hhold (by rw [hpc]; rfl)
    have hr := hreset (by rw [hpc]; rfl)
    simp only [Option.some.injEq] at hs
    subst hs
    exact Sync.inv_set_pc s _ hinv (fun _ => hh) (fun _ => hr)
  · -- queue_submit
    rename_i hpc
    have hh := hhold (by rw [hpc]; rfl)
    have hr := hreset (by rw [hpc]; rfl)
    split at hs
    · simp only [Option.some.injEq] at hs
      subst hs
      exact Sync.inv_exited s hinv
    · simp only [Option.some.injEq] at hs
      subst hs
      refine ⟨hlen, ?_, ?_, by simp [Pc.holds_slot], by simp [Pc.fence_was_reset]⟩
      · refine List.Nodup.append hnd (List.nodup_singleton _) ?_
        intro a ha hb
        simp only [List.mem_singleton] at hb
        exact hh.2 (hb ▸ ha)
      · intro k hk
        simp only [List.mem_append, List.mem_singleton] at hk
        rcases hk with hk | hk
        · exact hpend k hk
        · subst hk; exact ⟨hh.1, hr⟩
  · -- queue_present
    simp only [Option.some.injEq] at hs
    subst hs
    rcases after_check_cases result Pc.advance with hx | ⟨_, hx⟩
    · rw [hx]; exact Sync.inv_exited s hinv
    · rw [hx]
      exact Sync.inv_set_pc s _ hinv (by simp [Pc.holds_slot]) (by simp [Pc.fence_was_reset])
  · -- advance
    simp only [Option.some.injEq] at hs
    subst hs
    exact ⟨hlen, hnd, hpend, by simp [Pc.holds_slot], by simp [Pc.fence_was_reset]⟩
  · cases hs

theorem Sync.inv_gpu_step (s s2 : Sync) (k : Nat) (h : s.inv)
    (hs : gpu_step s k = some s2) : s2.inv := by
  obtain ⟨hlen, hnd, hpend, hhold, hreset⟩ := h
  unfold gpu_step at hs
  split at hs
  · cases hs
  · rename_i slot hslot
    simp only [Option.some.injEq] at hs
    subst hs
    have hslot_mem : slot ∈ s.pending := List.getElem?_mem hslot
    have hne : ∀ j ∈ s.pending.eraseIdx k, slot ≠ j := by
      intro j hj e
      subst e
      obtain ⟨i, hik, hi⟩ := List.mem_eraseIdx_iff_getElem?.mp hj
      obtain ⟨hk1, hk2⟩ := List.getElem?_eq_some_iff.mp hslot
      obtain ⟨hi1, hi2⟩ := List.getElem?_eq_some_iff.mp hi
      have heq : s.pending[i] = s.pending[k] := hi2.trans hk2.symm
      exact hik ((List.Nodup.getElem_inj_iff hnd).mp heq)
    refine ⟨by simpa using hlen, hnd.eraseIdx k, ?_, ?_, ?_⟩
    · intro j hj
      have hj2 := List.mem_of_mem_eraseIdx hj
      refine ⟨(hpend j hj2).1, ?_⟩
      simp only [List.getElem?_set_ne (hne j hj)]
      exact (hpend j hj2).2
    · intro hp
      have hh := hhold hp
      exact ⟨hh.1, fun hm => hh.2 (List.mem_of_mem_eraseIdx hm)⟩
    · intro hp
      have hslotne : slot ≠ s.g_frame_index := by
        intro e
        have hh := hhold (by
          cases hpc : s.pc <;> simp_all [Pc.holds_slot, Pc.fence_was_reset])
        exact hh.2 (e ▸ hslot_mem)
      simp only [List.getElem?_set_ne hslotne]
      exact hreset hp

theorem Sync.inv_step (s s2 : Sync) (a : Action) (h : s.inv) (hs : s.step a = some s2) :
    s2.inv := by
  cases a with
  | cpu result => exact Sync.inv_cpu_step s s2 result h hs
  | gpu_complete k => exact Sync.inv_gpu_step s s2 k h hs

theorem Sync.inv_run (acts : List Action) :
    ∀ s s2 : Sync, s.inv → s.run acts = some s2 → s2.inv := by
  induction acts with
  | nil =>
    intro s s2 h hs
    simp only [Sync.run, Option.some.injEq] at hs
    exact hs ▸ h
  | cons a rest ih =>
    intro s s2 h hs
    simp only [Sync.run] at hs
    split at hs
    · cases hs
    · rename_i s1 h1
      exact ih s1 s2 (Sync.inv_step s s1 a h h1) hs

theorem Sync.slot_count_step (s s2 : Sync) (a : Action) (hs : s.step a = some s2) :
    s2.slot_count = s.slot_count := by
  cases a with
  | cpu result =>
    simp only [Sync.step, cpu_step] at hs
    repeat' (split at hs)
    all_goals (cases hs <;> rfl)
  | gpu_complete k =>
    simp only [Sync.step, gpu_step] at hs
    split at hs
    · cases hs
    · simp only [Option.some.injEq] at hs; subst hs; rfl

theorem Sync.slot_count_run (acts : List Action) :
    ∀ s s2 : Sync, s.run acts = some s2 → s2.slot_count = s.slot_count := by
  induction acts with
  | nil =>
    intro s s2 hs
    simp only [Sync.run, Option.some.injEq] at hs
    rw [hs]
  | cons a rest ih =>
    intro s s2 hs
    simp only [Sync.run] at hs
    split at hs
    · cases hs
    · rename_i s1 h1
      rw [ih s1 s2 hs, Sync.slot_count_step s s1 a h1]

/-- A duplicate-free list of numbers below `n` has at most `n` elements. -/
theorem nodup_bounded_length (l : List Nat) (n : Nat) (hnd : l.Nodup)
    (hlt : ∀ k ∈ l, k < n) : l.length ≤ n := by
  have hsub : l ⊆ List.range n := fun k hk => List.mem_range.mpr (hlt k hk)
  have := (List.subperm_of_subset hnd hsub).length_le
  simpa using this

/-- The positions of the step model follow the calls of a completed `render` in
order: the five calls up to the begin, the ten recorded commands, then end, submit
and present. -/
theorem pc_order_of_completed_frame (g : Globals) (r : FrameResults) (frame : Frame)
    (img : Handle)
    (hf : g.g_frames[g.g_frame_index]? = some frame) (hr : r.checked_ok)
    (hi : g.g_swapchain_images[r.image_index]? = some img)
    (hn : g.g_swapchain_image_count ≠ 0) :
    (render g r).calls.map Pc.of_call =
      [Pc.wait_for_fences, Pc.reset_fences, Pc.acquire_next_image, Pc.reset_command_buffer,
       Pc.begin_command_buffer] ++ List.replicate 10 Pc.record ++
      [Pc.end_command_buffer, Pc.queue_submit, Pc.queue_present] := by
  rw [render_completed g r frame img hf hr hi hn]
  rfl

/-- With two slots the CPU can submit two frames without any completion, which
reaches the bound, and is then blocked in the fence wait of slot 0. -/
theorem frame_loop_blocks_on_unsignaled_fence :
    (Sync.init 2).run (List.replicate 20 (Action.cpu VK_SUCCESS)) =
      some { slot_count := 2, g_frame_index := 0, pc := Pc.wait_for_fences,
             signaled := [false, false], pending := [0, 1] } ∧
    (Sync.init 2).run (List.replicate 21 (Action.cpu VK_SUCCESS)) = none := by
  decide

/-- C10: in every state reached from the state after `init_frames` (every fence
signaled, nothing pending) by CPU steps of `render` and GPU completions in any
interleaving, whenever the CPU is about to reset, begin, record into or end the
current slot's command buffer that slot has no pending submission, and the number
of pending submissions is at most the slot count. -/
theorem C10_no_rerecord_while_pending (n : Nat) (acts : List Action) (s : Sync)
    (h : (Sync.init n).run acts = some s) :
    (s.pc.touches_command_buffer = true → s.g_frame_index ∉ s.pending) ∧
    s.pending.length ≤ n := by
  have hinv := Sync.inv_run acts (Sync.init n) s (Sync.inv_init n) h
  have hn : s.slot_count = n := Sync.slot_count_run acts (Sync.init n) s h
  obtain ⟨_, hnd, hpend, hhold, _⟩ := hinv
  constructor
  · intro hpc
    exact (hhold (by cases hp : s.pc <;> simp_all [Pc.touches_command_buffer, Pc.holds_slot])).2
  · rw [← hn]
    exact nodup_bounded_length s.pending s.slot_count hnd (fun k hk => (hpend k hk).1)

/-- C10 on a run with two slots: both frames are submitted, the CPU blocks until
the GPU completes the older one, and reaches the begin of slot 0 with only slot 1
pending. -/
theorem C10_no_rerecord_while_pending_witness :
    (Sync.init 2).run sample_actions =
      some { slot_count := 2, g_frame_index := 0, pc := Pc.begin_command_buffer,
             signaled := [false, false], pending := [1] } ∧
    (0 ∉ [1]) ∧ [1].length ≤ 2 :=
  have h : (Sync.init 2).run sample_actions =
      some { slot_count := 2, g_frame_index := 0, pc := Pc.begin_command_buffer,
             signaled := [false, false], pending := [1] } := by decide
  have c := C10_no_rerecord_while_pending 2 sample_actions _ h
  ⟨h, c.1 rfl, c.2⟩

/-! ## Layout tracking -/

theorem track_append (g : Globals) (a b : List Call) :
    ∀ t : Layouts, track g t (a ++ b) =
      ((track g t a).1 && (track g (track g t a).2 b).1, (track g (track g t a).2 b).2) := by
  induction a with
  | nil => intro t; simp [track]
  | cons c rest ih =>
    intro t
    have h := ih (layout_after t c)
    rw [List.cons_append]
    simp only [track]
    rw [h]
    simp only [Bool.and_assoc]

/-- One frame's recorded commands find the layouts they require, whatever the
layouts were before, when the acquired image is not the intermediate image. -/
theorem track_record_commands (g : Globals) (frame : Frame) (img : Handle) (t : Layouts)
    (hne : g.g_wr_image.handle ≠ img) :
    track g t (record_commands g frame img) =
      (true, Function.update (Function.update (Function.update (Function.update t
        g.g_wr_image.handle VkImageLayout.GENERAL)
        g.g_wr_image.handle VkImageLayout.TRANSFER_SRC_OPTIMAL)
        img VkImageLayout.TRANSFER_DST_OPTIMAL)
        img VkImageLayout.PRESENT_SRC_KHR) := by
  simp [record_commands, record_compute, record_copy, transform_image_layout, blit_image,
    track, layout_check, layout_after, barrier_old_layout_ok, Function.update, hne,
    Ne.symm hne]

/-- The calls of one `render`, whatever the driver returns, find the layouts they
require, whatever the layouts were before. -/
theorem track_render (g : Globals) (r : FrameResults) (t : Layouts)
    (hd : g.g_wr_image.handle ∉ g.g_swapchain_images) :
    (track g t (render g r).calls).1 = true := by
  cases hfr : g.g_frames[g.g_frame_index]? with
  | none => simp [render, hfr, track]
  | some frame =>
    cases himg : g.g_swapchain_images[r.image_index]? with
    | none =>
      simp only [render, hfr, himg]
      repeat' split
      all_goals
        simp [Run.exit_after, record_compute, transform_image_layout, track, layout_check,
          layout_after, barrier_old_layout_ok, Function.update]
    | some img =>
      have hne : g.g_wr_image.handle ≠ img := fun e => hd (e ▸ List.getElem?_mem himg)
      simp only [render, hfr, himg]
      repeat' split
      all_goals
        simp [Run.exit_after, record_commands, record_compute, record_copy,
          transform_image_layout, blit_image, track, layout_check, layout_after,
          barrier_old_layout_ok, Function.update, hne, Ne.symm hne]

theorem track_frames_calls (rs : List FrameResults) :
    ∀ (g : Globals) (t : Layouts), g.g_wr_image.handle ∉ g.g_swapchain_images →
      (track g t (frames_calls g rs)).1 = true := by
  induction rs with
  | nil => intro g t _; rfl
  | cons r rs ih =>
    intro g t hd
    simp only [frames_calls]
    split
    · rename_i g2 hret
      have hg2 := render_returned g g2 r hret
      rw [track_append]
      simp only [Bool.and_eq_true]
      refine ⟨track_render g r t hd, ?_⟩
      have h2 := ih g2 (track g t (render g r).calls).2 (by rw [hg2]; exact hd)
      have htr : ∀ (t2 : Layouts) (cs : List Call), track g2 t2 cs = track g t2 cs := by
        intro t2 cs
        induction cs generalizing t2 with
        | nil => rfl
        | cons c cs ihc =>
          simp only [track, ihc]
          have : layout_check g2 t2 c = layout_check g t2 c := by
            rw [hg2]; cases c <;> rfl
          rw [this]
      rw [← htr]
      exact h2
    · exact track_render g r t hd

/-- C11: with the intermediate image distinct from every presentable image and all
layouts tracked from `UNDEFINED`, for every sequence of frames and acquired
indices, whatever the driver returns: each recorded barrier declares an old layout
that is `UNDEFINED` or the tracked layout of its image, the dispatch is recorded
while the intermediate image is `GENERAL`, and the blit while its source is
`TRANSFER_SRC_OPTIMAL` and its destination `TRANSFER_DST_OPTIMAL`.  From any
tracked layouts, one frame's transitions for an acquired image leave the
intermediate image in `TRANSFER_SRC_OPTIMAL`, that image in `PRESENT_SRC_KHR` and
every other image as it was, and applying them twice leaves the same layouts as
applying them once. -/
theorem C11_layout_tracking (g : Globals) (rs : List FrameResults) (frame frame2 : Frame)
    (img : Handle) (t : Layouts)
    (hd : g.g_wr_image.handle ∉ g.g_swapchain_images) (himg : img ∈ g.g_swapchain_images) :
    (∀ pre c post, frames_calls g rs = pre ++ c :: post →
      (∀ cmd src dst m b ibs, c = Call.vkCmdPipelineBarrier cmd src dst m b ibs →
        ∀ ib ∈ ibs, ib.oldLayout = VkImageLayout.UNDEFINED ∨
          ib.oldLayout = (track g Layouts.initial pre).2 ib.image) ∧
      (∀ cmd x y z, c = Call.vkCmdDispatch cmd x y z →
        (track g Layouts.initial pre).2 g.g_wr_image.handle = VkImageLayout.GENERAL) ∧
      (∀ cmd src sl dst dl se de, c = Call.vkCmdBlitImage2 cmd src sl dst dl se de →
        (track g Layouts.initial pre).2 src = VkImageLayout.TRANSFER_SRC_OPTIMAL ∧
        (track g Layouts.initial pre).2 dst = VkImageLayout.TRANSFER_DST_OPTIMAL)) ∧
    (track g t (record_commands g frame img ++ record_commands g frame2 img)).2 =
      (track g t (record_commands g frame img)).2 ∧
    (track g t (record_commands g frame img)).2 g.g_wr_image.handle =
      VkImageLayout.TRANSFER_SRC_OPTIMAL ∧
    (track g t (record_commands g frame img)).2 img = VkImageLayout.PRESENT_SRC_KHR ∧
    (∀ other, other ≠ g.g_wr_image.handle → other ≠ img →
      (track g t (record_commands g frame img)).2 other = t other) := by
  have hne : g.g_wr_image.handle ≠ img := fun e => hd (e ▸ himg)
  refine ⟨?_, ?_, ?_, ?_, ?_⟩
  · intro pre c post hsplit
    have hall := track_frames_calls rs g Layouts.initial hd
    rw [hsplit, track_append] at hall
    simp only [track, Bool.and_eq_true] at hall
    have hc := hall.2.1
    refine ⟨?_, ?_, ?_⟩
    · intro cmd src dst m b ibs hceq ib hib
      subst hceq
      simp only [layout_check, List.all_eq_true] at hc
      have := hc ib hib
      simpa [barrier_old_layout_ok] using this
    · intro cmd x y z hceq
      subst hceq
      simpa [layout_check] using hc
    · intro cmd src sl dst dl se de hceq
      subst hceq
      simpa [layout_check] using hc
  · rw [track_append, track_record_commands g frame img t hne,
      track_record_commands g frame2 img _ hne]
    funext x
    simp only [Function.update]
    split <;> simp_all
  · rw [track_record_commands g frame img t hne]
    simp [Function.update, hne]
  · rw [track_record_commands g frame img t hne]
    simp [Function.update]
  · intro other h1 h2
    rw [track_record_commands g frame img t hne]
    simp [Function.update, h1, h2]

/-- C11 at the sample state for three frames that acquire images 1, 1 and 0: every
command finds the layouts it requires, and after one frame's commands for image
101 the intermediate image (16) is in `TRANSFER_SRC_OPTIMAL` and image 101 in
`PRESENT_SRC_KHR`. -/
theorem C11_layout_tracking_witness :
    (track sample_state Layouts.initial
      (frames_calls sample_state [ok_results 1, ok_results 1, ok_results 0])).1 = true ∧
    (track sample_state Layouts.initial
      (record_commands sample_state (sample_created 0) 101)).2 16 =
        VkImageLayout.TRANSFER_SRC_OPTIMAL ∧
    (track sample_state Layouts.initial
      (record_commands sample_state (sample_created 0) 101)).2 101 =
        VkImageLayout.PRESENT_SRC_KHR :=
  have h := C11_layout_tracking sample_state [ok_results 1, ok_results 1, ok_results 0]
    (sample_created 0) (sample_created 1) 101 Layouts.initial (by decide) (by decide)
  ⟨by decide, h.2.2.1, h.2.2.2.1⟩

/-! ## Shader loading -/

/-- C12 refuted by a file of six bytes: the vector holds one word, four bytes and
not six, the read is asked to store six bytes into those four, and the declared
`codeSize` is four. -/
theorem C12_counterexample :
    get_file_data (some [3, 2, 35, 7, 0, 0]) =
      OrExit.value { buffer_size := 1, stored := [3, 2, 35, 7], read_count := 6 } ∧
    4 * 1 ≠ [3, 2, 35, 7, 0, 0].length ∧
    ¬ (6 ≤ 4 * 1) ∧
    (shader_module_create_info
      { buffer_size := 1, stored := [3, 2, 35, 7], read_count := 6 }).codeSize = 4 ∧
    create_shader_module (some [3, 2, 35, 7, 0, 0]) VK_SUCCESS 30 =
      OrExit.value ({ codeSize := 4, pCode := [3, 2, 35, 7] }, 30) := by
  decide

/-- C12 as amended: for every file that opens with a size `s` that is a multiple
of 4 (and fits a `size_t`), `get_file_data` returns a vector whose byte size,
4 times its length, is `s`, the read stores no more bytes than the vector holds,
the vector holds exactly the bytes of the file, and `create_shader_module`
declares `codeSize = s`. -/
theorem C12_file_read_fully_when_multiple_of_4 (content : List Nat)
    (hsize : content.length < 2 ^ 64) (h4 : 4 ∣ content.length) :
    ∃ data, get_file_data (some content) = OrExit.value data ∧
      4 * data.buffer_size = content.length ∧
      data.read_count ≤ 4 * data.buffer_size ∧
      data.stored = content ∧
      (shader_module_create_info data).codeSize = content.length ∧
      ∀ shader_module, create_shader_module (some content) VK_SUCCESS shader_module =
        OrExit.value ({ codeSize := content.length, pCode := content }, shader_module) := by
  have hmod : content.length % 2 ^ 64 = content.length := Nat.mod_eq_of_lt hsize
  have hwords : 4 * (content.length / 4) = content.length := Nat.mul_div_cancel' h4
  have hcode : (content.length / 4 * 4) % 2 ^ 64 = content.length := by
    rw [Nat.mul_comm, hwords, hmod]
  have hget : get_file_data (some content) =
      OrExit.value { buffer_size := content.length / 4, stored := content,
                     read_count := content.length } := by
    have h0 : get_file_data (some content) =
        OrExit.value { buffer_size := content.length % 2 ^ 64 / 4,
                       stored := content.take (4 * (content.length % 2 ^ 64 / 4)),
                       read_count := content.length % 2 ^ 64 } := rfl
    rw [h0, hmod, hwords, List.take_length]
  have hinfo : shader_module_create_info
      { buffer_size := content.length / 4, stored := content,
        read_count := content.length } =
      { codeSize := content.length, pCode := content } := by
    simp only [shader_module_create_info, hcode]
  refine ⟨_, hget, hwords, by rw [hwords], rfl, by rw [hinfo], ?_⟩
  intro shader_module
  simp only [create_shader_module, hget, check_vk_success, hinfo]

/-- C12 as amended, at a file of eight bytes. -/
theorem C12_file_read_fully_when_multiple_of_4_witness :
    ∃ data, get_file_data (some [3, 2, 35, 7, 0, 0, 1, 0]) = OrExit.value data ∧
      4 * data.buffer_size = 8 ∧ data.read_count ≤ 4 * data.buffer_size ∧
      (shader_module_create_info data).codeSize = 8 := by
  obtain ⟨data, h1, h2, h3, _, h5, _⟩ :=
    C12_file_read_fully_when_multiple_of_4 [3, 2, 35, 7, 0, 0, 1, 0] (by decide) (by decide)
  exact ⟨data, h1, h2, h3, h5⟩

/-- A file that cannot be opened ends the process with code 1. -/
theorem get_file_data_not_open : get_file_data none = OrExit.exit 1 := by
  decide

/-! ## The loop of main -/

theorem poll_events_true (batch : List SDL_EventType) : poll_events true batch = true := by
  induction batch with
  | nil => rfl
  | cons e rest ih =>
    simp only [poll_events, List.foldl_cons] at ih ⊢
    split <;> exact ih

theorem poll_events_cons (quit : Bool) (e : SDL_EventType) (rest : List SDL_EventType) :
    poll_events quit (e :: rest) =
      poll_events (if e = SDL_EVENT_QUIT then true else quit) rest := rfl

theorem poll_events_iff (batch : List SDL_EventType) :
    poll_events false batch = true ↔ SDL_EVENT_QUIT ∈ batch := by
  induction batch with
  | nil => simp [poll_events]
  | cons e rest ih =>
    rw [poll_events_cons]
    by_cases he : e = SDL_EVENT_QUIT
    · rw [if_pos he, poll_events_true, he]
      simp
    · rw [if_neg he, ih]
      simp [Ne.symm he]

theorem frame_ready_advance (g : Globals) (count : Nat) (h : frame_ready g count)
    (hn : 1 ≤ count) : frame_ready (advance g) count := by
  obtain ⟨⟨h1, h2, h3, h4, h5, h6, h7⟩, _⟩ := h
  refine ⟨⟨h1, h2, h3, h4, h5, h6, h7⟩, ?_⟩
  simp only [advance, h1]
  exact Nat.mod_lt _ (by omega)

theorem render_ready (g : Globals) (count : Nat) (r : FrameResults)
    (h : frame_ready g count) (hn : 1 ≤ count) (hr : r.checked_ok)
    (hi : r.image_index < count) :
    (render g r).outcome = Outcome.returned (advance g) := by
  obtain ⟨⟨h1, h2, h3, _, _, _, _⟩, hidx⟩ := h
  have hf : g.g_frames[g.g_frame_index]? = some (g.g_frames[g.g_frame_index]) :=
    List.getElem?_eq_getElem (by omega)
  have himg : g.g_swapchain_images[r.image_index]? = some (g.g_swapchain_images[r.image_index]) :=
    List.getElem?_eq_getElem (by omega)
  rw [render_completed g r _ _ hf hr himg (by omega)]

theorem frame_ready_advance_by (k : Nat) :
    ∀ g : Globals, ∀ count, frame_ready g count → 1 ≤ count →
      frame_ready (advance_by k g) count := by
  induction k with
  | zero => intro g count h _; exact h
  | succ k ih =>
    intro g count h hn
    exact ih (advance g) count (frame_ready_advance g count h hn) hn

theorem main_loop_cons_quit (g g2 : Globals) (batch : List SDL_EventType) (r : FrameResults)
    (rest : List (List SDL_EventType × FrameResults))
    (hrun : (render g r).outcome = Outcome.returned g2)
    (hq : poll_events false batch = true) :
    main_loop g ((batch, r) :: rest) = ([render g r], LoopEnd.quit g2) := by
  simp only [main_loop, hrun, hq, if_true]

theorem main_loop_cons_continue (g g2 : Globals) (batch : List SDL_EventType)
    (r : FrameResults) (rest : List (List SDL_EventType × FrameResults))
    (hrun : (render g r).outcome = Outcome.returned g2)
    (hq : poll_events false batch = false) :
    main_loop g ((batch, r) :: rest) =
      (render g r :: (main_loop g2 rest).1, (main_loop g2 rest).2) := by
  simp only [main_loop, hrun, hq, Bool.false_eq_true, if_false]

/-- The loop renders once per iteration up to and including the first iteration
whose poll sees a quit event, then ends; later input is not consumed. -/
theorem main_loop_until_quit (count : Nat) (hn : 1 ≤ count)
    (batch : List SDL_EventType) (r : FrameResults)
    (after : List (List SDL_EventType × FrameResults))
    (hquit : SDL_EVENT_QUIT ∈ batch) (hr : r.checked_ok) (hi : r.image_index < count)
    (before : List (List SDL_EventType × FrameResults)) :
    ∀ g : Globals, frame_ready g count →
      (∀ x ∈ before, SDL_EVENT_QUIT ∉ x.1 ∧ x.2.checked_ok ∧ x.2.image_index < count) →
      (main_loop g (before ++ (batch, r) :: after)).1.length = before.length + 1 ∧
      (main_loop g (before ++ (batch, r) :: after)).2 =
        LoopEnd.quit (advance_by (before.length + 1) g) ∧
      ∀ run ∈ (main_loop g (before ++ (batch, r) :: after)).1,
        ∃ g2, run.outcome = Outcome.returned g2 := by
  induction before with
  | nil =>
    intro g hg _
    have hrun := render_ready g count r hg hn hr hi
    have hq := (poll_events_iff batch).mpr hquit
    rw [List.nil_append, main_loop_cons_quit g (advance g) batch r after hrun hq]
    refine ⟨rfl, rfl, ?_⟩
    intro run hrun2
    simp only [List.mem_singleton] at hrun2
    exact ⟨advance g, hrun2 ▸ hrun⟩
  | cons x rest ih =>
    intro g hg hbefore
    obtain ⟨xb, xr⟩ := x
    obtain ⟨hx1, hx2, hx3⟩ := hbefore (xb, xr) (List.mem_cons_self _ _)
    have hrun := render_ready g count xr hg hn hx2 hx3
    have hq : poll_events false xb = false := by
      cases hp : poll_events false xb
      · rfl
      · exact absurd ((poll_events_iff xb).mp hp) hx1
    obtain ⟨h1, h2, h3⟩ := ih (advance g) (frame_ready_advance g count hg hn)
      (fun y hy => hbefore y (List.mem_cons_of_mem _ hy))
    rw [List.cons_append, main_loop_cons_continue g (advance g) xb xr _ hrun hq]
    refine ⟨by simp only [List.length_cons, h1], by rw [h2]; rfl, ?_⟩
    intro run hrun2
    simp only [List.mem_cons] at hrun2
    rcases hrun2 with hrun2 | hrun2
    · exact ⟨advance g, hrun2 ▸ hrun⟩
    · exact h3 run hrun2

/-- The `k`-th run of the loop's result is the run of `render` on the globals
after `k` completed frames with the results given to iteration `k`. -/
theorem main_loop_frames (count : Nat) (hn : 1 ≤ count)
    (batch : List SDL_EventType) (r : FrameResults)
    (after : List (List SDL_EventType × FrameResults))
    (hquit : SDL_EVENT_QUIT ∈ batch) (hr : r.checked_ok) (hi : r.image_index < count)
    (before : List (List SDL_EventType × FrameResults)) :
    ∀ g : Globals, frame_ready g count →
      (∀ x ∈ before, SDL_EVENT_QUIT ∉ x.1 ∧ x.2.checked_ok ∧ x.2.image_index < count) →
      ∀ k x, (before ++ [(batch, r)])[k]? = some x →
        (main_loop g (before ++ (batch, r) :: after)).1[k]? =
          some (render (advance_by k g) x.2) ∧
        (render (advance_by k g) x.2).outcome = Outcome.returned (advance_by (k + 1) g) := by
  induction before with
  | nil =>
    intro g hg _ k x hk
    have hrun := render_ready g count r hg hn hr hi
    have hq := (poll_events_iff batch).mpr hquit
    rw [List.nil_append, main_loop_cons_quit g (advance g) batch r after hrun hq]
    cases k with
    | zero =>
      simp only [List.nil_append, List.getElem?_cons_zero, Option.some.injEq] at hk
      subst hk
      exact ⟨rfl, hrun⟩
    | succ k => simp at hk
  | cons y rest ih =>
    intro g hg hbefore k x hk
    obtain ⟨yb, yr⟩ := y
    obtain ⟨hy1, hy2, hy3⟩ := hbefore (yb, yr) (List.mem_cons_self _ _)
    have hrun := render_ready g count yr hg hn hy2 hy3
    have hq : poll_events false yb = false := by
      cases hp : poll_events false yb
      · rfl
      · exact absurd ((poll_events_iff yb).mp hp) hy1
    rw [List.cons_append, main_loop_cons_continue g (advance g) yb yr _ hrun hq]
    cases k with
    | zero =>
      simp only [List.cons_append, List.getElem?_cons_zero, Option.some.injEq] at hk
      subst hk
      exact ⟨by simp only [List.getElem?_cons_zero, advance_by], hrun⟩
    | succ k =>
      simp only [List.cons_append, List.getElem?_cons_succ] at hk
      have h := ih (advance g) (frame_ready_advance g count hg hn)
        (fun z hz => hbefore z (List.mem_cons_of_mem _ hz)) k x hk
      simpa only [List.getElem?_cons_succ, advance_by] using h

/-- C13: from the globals a successful start-up leaves, if the first poll batch
with a quit event is the one at 1-based position `p` (the batches before it have
none) and the renders up to it succeed, then whatever input follows, `main`
renders exactly `p` frames, at least one in all: for every iteration `k` up to and
including the one that saw the quit, the `k`-th frame is the run of `render` on the
globals after `k` completed frames with that iteration's results, and that run
returns with the slot index advanced once more; the loop ends after `p`
advances, no later batch is polled, then `release_resources` runs and `main`
returns 0. -/
theorem C13_loop_renders_through_quit_iteration (g : Globals) (count : Nat)
    (func_found : Bool) (before after : List (List SDL_EventType × FrameResults))
    (batch : List SDL_EventType) (r : FrameResults)
    (hg : frame_ready g count) (hn : 1 ≤ count)
    (hbefore : ∀ x ∈ before,
      SDL_EVENT_QUIT ∉ x.1 ∧ x.2.checked_ok ∧ x.2.image_index < count)
    (hquit : SDL_EVENT_QUIT ∈ batch) (hr : r.checked_ok) (hi : r.image_index < count) :
    (main g func_found (before ++ (batch, r) :: after)).frames.length = before.length + 1 ∧
    1 ≤ (main g func_found (before ++ (batch, r) :: after)).frames.length ∧
    (∀ k x, (before ++ [(batch, r)])[k]? = some x →
      (main g func_found (before ++ (batch, r) :: after)).frames[k]? =
        some (render (advance_by k g) x.2) ∧
      (render (advance_by k g) x.2).outcome = Outcome.returned (advance_by (k + 1) g)) ∧
    (main g func_found (before ++ (batch, r) :: after)).frames[before.length]? =
      some (render (advance_by before.length g) r) ∧
    (∀ run ∈ (main g func_found (before ++ (batch, r) :: after)).frames,
      ∃ g2, run.outcome = Outcome.returned g2) ∧
    (main_loop g (before ++ (batch, r) :: after)).2 =
      LoopEnd.quit (advance_by (before.length + 1) g) ∧
    (main g func_found (before ++ (batch, r) :: after)).teardown =
      some (release_resources (advance_by (before.length + 1) g) func_found) ∧
    (release_resources (advance_by (before.length + 1) g) func_found).completed = true ∧
    (main g func_found (before ++ (batch, r) :: after)).ending = MainEnd.returned 0 := by
  obtain ⟨h1, h2, h3⟩ :=
    main_loop_until_quit count hn batch r after hquit hr hi before g hg hbefore
  have hframes := main_loop_frames count hn batch r after hquit hr hi before g hg hbefore
  have hready := frame_ready_advance_by (before.length + 1) g count hg hn
  have hdone : (release_resources (advance_by (before.length + 1) g) func_found).completed
      = true := by
    obtain ⟨⟨_, _, _, _, a1, a2, a3⟩, _⟩ := hready
    simp [release_resources, destroy_image, a1, a2, a3]
  have hmain : main g func_found (before ++ (batch, r) :: after) =
      { frames := (main_loop g (before ++ (batch, r) :: after)).1,
        teardown := some (release_resources (advance_by (before.length + 1) g) func_found),
        ending := MainEnd.returned 0 } := by
    simp only [main, h2, hdone, if_true]
  have hlast : (before ++ [(batch, r)])[before.length]? = some (batch, r) := by
    simp
  rw [hmain]
  exact ⟨h1, by rw [h1]; omega, hframes, (hframes before.length (batch, r) hlast).1, h3, h2,
    rfl, hdone, rfl⟩

/-- C13 at the sample state: the third batch holds the quit event, so exactly
three frames are rendered, by `render` on slots 0, 1 and 2 in turn (each waits on
its own slot's fence and completes), the teardown runs and `main` returns 0; the
fourth batch is never polled. -/
theorem C13_loop_renders_through_quit_iteration_witness :
    (main sample_state true
      [([], ok_results 0), ([768], ok_results 1), ([768, SDL_EVENT_QUIT], ok_results 2),
       ([], ok_results 0)]).frames =
      [ render sample_state (ok_results 0),
        render (advance sample_state) (ok_results 1),
        render (advance (advance sample_state)) (ok_results 2) ] ∧
    (main sample_state true
      [([], ok_results 0), ([768], ok_results 1), ([768, SDL_EVENT_QUIT], ok_results 2),
       ([], ok_results 0)]).frames.map (fun run => (run.calls.head?, run.calls.length)) =
      [ (some (Call.vkWaitForFences 2000 true UINT64_MAX), 18),
        (some (Call.vkWaitForFences 2001 true UINT64_MAX), 18),
        (some (Call.vkWaitForFences 2002 true UINT64_MAX), 18) ] ∧
    (main sample_state true
      [([], ok_results 0), ([768], ok_results 1), ([768, SDL_EVENT_QUIT], ok_results 2),
       ([], ok_results 0)]).frames[2]? =
      some (render (advance_by 2 sample_state) (ok_results 2)) ∧
    (main sample_state true
      [([], ok_results 0), ([768], ok_results 1), ([768, SDL_EVENT_QUIT], ok_results 2),
       ([], ok_results 0)]).ending = MainEnd.returned 0 :=
  have h := C13_loop_renders_through_quit_iteration sample_state 3 true
    [([], ok_results 0), ([768], ok_results 1)] [([], ok_results 0)]
    [768, SDL_EVENT_QUIT] (ok_results 2) (by decide) (by decide) (by decide) (by decide)
    (by decide) (by decide)
  ⟨by decide, by decide, h.2.2.2.1, h.2.2.2.2.2.2.2.2⟩

/-- With the quit event already pending at the first poll, one frame is still
rendered before the teardown. -/
theorem main_quit_pending_renders_once :
    (main sample_state true [([SDL_EVENT_QUIT], ok_results 0)]).frames.length = 1 ∧
    (main sample_state true [([SDL_EVENT_QUIT], ok_results 0)]).ending = MainEnd.returned 0 ∧
    (main sample_state true [([SDL_EVENT_QUIT], ok_results 0)]).teardown =
      some (release_resources (advance sample_state) true) := by
  decide

/-! ## Queue family selection -/

/-- When no family has the graphics bit the process exits with code 1. -/
theorem no_graphics_family_exits (g : Globals)
    (queue_families : List VkQueueFamilyProperties) (create_device : VkResult)
    (device queue : Handle)
    (h : ∀ qf ∈ queue_families, qf.queueFlags &&& VK_QUEUE_GRAPHICS_BIT = 0) :
    create_device_and_get_graphics_queue_run g queue_families create_device device queue =
      Outcome.exited 1 := by
  have hfind : find_if (fun queue_family : VkQueueFamilyProperties =>
      queue_family.queueFlags &&& VK_QUEUE_GRAPHICS_BIT != 0) queue_families
      = queue_families.length := by
    induction queue_families with
    | nil => rfl
    | cons x rest ih =>
      have hx := h x (List.mem_cons_self _ _)
      simp only [find_if, hx, bne_self_eq_false, Bool.false_eq_true, if_false,
        List.length_cons]
      rw [ih (fun qf hqf => h qf (List.mem_cons_of_mem _ hqf))]
  simp [create_device_and_get_graphics_queue_run, hfind, exit_if]

/-- The index stored for a first graphics family at offset `p`: `2^32 - p` modulo
`2^32`, which is `p` only for `p = 0` and `p = 2^31`. -/
theorem reversed_distance_index (p : Nat) (hp : p < 2 ^ 32) :
    to_uint32 (std_distance p 0) = (2 ^ 32 - p) % 2 ^ 32 ∧
    (to_uint32 (std_distance p 0) = p ↔ p = 0 ∨ p = 2 ^ 31) := by
  have h : to_uint32 (std_distance p 0) = (2 ^ 32 - p) % 2 ^ 32 := by
    simp only [to_uint32, std_distance]
    omega
  refine ⟨h, ?_⟩
  rw [h]
  constructor
  · intro h2
    omega
  · intro h2
    rcases h2 with h2 | h2 <;> subst h2 <;> rfl

/-- With a graphics family present and the device created, the stored index is the
conversion of `begin - it`. -/
theorem queue_family_index_stored (g : Globals)
    (queue_families : List VkQueueFamilyProperties) (device queue : Handle)
    (h : find_if (fun queue_family : VkQueueFamilyProperties =>
      queue_family.queueFlags &&& VK_QUEUE_GRAPHICS_BIT != 0) queue_families
        < queue_families.length) :
    create_device_and_get_graphics_queue_run g queue_families VK_SUCCESS device queue =
      Outcome.returned { g with
        g_queue_family_index := to_uint32 (std_distance (find_if
          (fun queue_family : VkQueueFamilyProperties =>
            queue_family.queueFlags &&& VK_QUEUE_GRAPHICS_BIT != 0) queue_families) 0),
        g_device := device, g_queue := queue } := by
  have hne : (find_if (fun queue_family : VkQueueFamilyProperties =>
      queue_family.queueFlags &&& VK_QUEUE_GRAPHICS_BIT != 0) queue_families
        == queue_families.length) = false := by
    simp only [beq_eq_false_iff_ne, ne_eq]
    omega
  simp only [create_device_and_get_graphics_queue_run, hne, exit_if, Bool.false_eq_true,
    if_false, check_vk_success]

/-- C14, the code at a failing input: with a compute-only family at position 0 and
the first graphics family at position 1, `g_queue_family_index` is set to
4294967295, not to 1; with the graphics family first it is 0; with no graphics
family the process exits with code 1. -/
theorem C14_reversed_distance :
    create_device_and_get_graphics_queue_run (sample_globals 3 ⟨500, 500⟩)
        sample_queue_families VK_SUCCESS 7 6 =
      Outcome.returned { sample_globals 3 ⟨500, 500⟩ with
        g_queue_family_index := 4294967295, g_device := 7, g_queue := 6 } ∧
    find_if (fun queue_family : VkQueueFamilyProperties =>
      queue_family.queueFlags &&& VK_QUEUE_GRAPHICS_BIT != 0) sample_queue_families = 1 ∧
    create_device_and_get_graphics_queue_run (sample_globals 3 ⟨500, 500⟩)
        sample_queue_families.reverse VK_SUCCESS 7 6 =
      Outcome.returned { sample_globals 3 ⟨500, 500⟩ with
        g_queue_family_index := 0, g_device := 7, g_queue := 6 } ∧
    create_device_and_get_graphics_queue_run (sample_globals 3 ⟨500, 500⟩)
        [⟨VK_QUEUE_COMPUTE_BIT, 1⟩] VK_SUCCESS 7 6 = Outcome.exited 1 := by
  decide

end WR
